import Mathlib

/-!
Shallow embedding of the RhizoVision Explorer command-line front end
(`mv.cpp` together with `feature_config.h`): command-line parsing with its
post-parse validation, the CSV header and row serialization, and the batch
driver in `main`.  Machine doubles are modelled by exact rationals together
with explicit NaN / infinity tags; the stream of `stderr` messages is
modelled as a list of tagged messages, and the `std::filesystem` queries
made by `parseCommandLine` are abstracted into an explicit `FileSystem`
record.
-/

namespace RVE

/-- Characters stripped by `trim_ws` (the C string " \t\r\n"). -/
def isTrimWS (c : Char) : Bool := c = ' ' || c = '\t' || c = '\r' || c = '\n'

/-- Embedding of `trim_ws`: strips leading and trailing spaces, tabs, CR and LF. -/
def trim_ws (s : String) : String :=
  String.mk (((s.toList.dropWhile isTrimWS).reverse.dropWhile isTrimWS).reverse)

/-- Embedding of `is_positive_number_like`: the regex
`^\+?(?:\d+(?:\.\d*)?|\.\d+)(?:[eE][+-]?\d+)?$` as a Boolean matcher. -/
def is_positive_number_like (s : String) : Bool :=
  let l := s.toList
  let l1 := match l with | '+' :: t => t | _ => l
  let p := l1.span (fun c => c.isDigit)
  let mant : Bool × List Char :=
    if p.1.isEmpty then
      match p.2 with
      | '.' :: t => ((!(t.span (fun c => c.isDigit)).1.isEmpty : Bool), (t.span (fun c => c.isDigit)).2)
      | _ => (false, p.2)
    else
      match p.2 with
      | '.' :: t => (true, (t.span (fun c => c.isDigit)).2)
      | _ => (true, p.2)
  if !mant.1 then false
  else
    match mant.2 with
    | [] => true
    | e :: t =>
      if e = 'e' || e = 'E' then
        let t2 := match t with
          | '+' :: u => u
          | '-' :: u => u
          | u => u
        (!(t2.span (fun c => c.isDigit)).1.isEmpty : Bool) && (t2.span (fun c => c.isDigit)).2.isEmpty
      else false

/-- Value of a list of decimal digit characters. -/
def digitsToNat (l : List Char) : Nat := l.foldl (fun a c => a * 10 + (c.toNat - 48)) 0

/-- Embedding of `std::stod`, restricted to the strings accepted by
`is_positive_number_like`: an optional leading plus, a decimal mantissa and an
optional decimal exponent, read exactly into a rational. -/
def parsePosNumber (s : String) : ℚ :=
  let l := s.toList
  let l1 := match l with | '+' :: t => t | _ => l
  let pe := l1.span (fun c => !(c = 'e' || c = 'E'))
  let pd := pe.1.span (fun c => !(c = '.'))
  let fp := match pd.2 with | _ :: t => t | [] => []
  let num := digitsToNat pd.1 * 10 ^ fp.length + digitsToNat fp
  let den := 10 ^ fp.length
  match pe.2 with
  | [] => mkRat num den
  | _ :: t =>
    match t with
    | '-' :: u => mkRat num (den * 10 ^ digitsToNat u)
    | '+' :: u => mkRat (num * 10 ^ digitsToNat u) den
    | u => mkRat (num * 10 ^ digitsToNat u) den

/-- Whitespace in the sense of C `isspace`, as skipped by `atoi` / `atof`. -/
def isSpaceChar (c : Char) : Bool :=
  c = ' ' || c = '\t' || c = '\n' || c = '\r' || c = '\x0b' || c = '\x0c'

/-- Embedding of C `atoi`: optional whitespace and sign followed by a digit
prefix; yields 0 when no digits are present. -/
def atoiModel (s : String) : Int :=
  let l := s.toList.dropWhile isSpaceChar
  match l with
  | '-' :: t => -((digitsToNat (t.takeWhile (fun c => c.isDigit)) : Int))
  | '+' :: t => (digitsToNat (t.takeWhile (fun c => c.isDigit)) : Int)
  | t => (digitsToNat (t.takeWhile (fun c => c.isDigit)) : Int)

/-- Embedding of C `atof` (`strtod`) on ordinary decimal literals: optional
whitespace and sign, digits, optional fractional part, optional decimal
exponent; yields 0 on input that does not start with a number. -/
def atofModel (s : String) : ℚ :=
  let l := s.toList.dropWhile isSpaceChar
  let sg : Bool × List Char :=
    match l with
    | '-' :: t => (true, t)
    | '+' :: t => (false, t)
    | t => (false, t)
  let p := sg.2.span (fun c => c.isDigit)
  let fr : List Char × List Char :=
    match p.2 with
    | '.' :: t => ((t.span (fun c => c.isDigit)).1, (t.span (fun c => c.isDigit)).2)
    | r => ([], r)
  if p.1.isEmpty && fr.1.isEmpty then 0
  else
    let num := digitsToNat p.1 * 10 ^ fr.1.length + digitsToNat fr.1
    let den := 10 ^ fr.1.length
    let q : ℚ :=
      match fr.2 with
      | 'e' :: t =>
        (match t with
         | '-' :: u => mkRat num (den * 10 ^ digitsToNat (u.takeWhile (fun c => c.isDigit)))
         | '+' :: u => mkRat (num * 10 ^ digitsToNat (u.takeWhile (fun c => c.isDigit))) den
         | u => mkRat (num * 10 ^ digitsToNat (u.takeWhile (fun c => c.isDigit))) den)
      | 'E' :: t =>
        (match t with
         | '-' :: u => mkRat num (den * 10 ^ digitsToNat (u.takeWhile (fun c => c.isDigit)))
         | '+' :: u => mkRat (num * 10 ^ digitsToNat (u.takeWhile (fun c => c.isDigit))) den
         | u => mkRat (num * 10 ^ digitsToNat (u.takeWhile (fun c => c.isDigit))) den)
      | _ => mkRat num den
    if sg.1 then -q else q

/-- Embedding of `std::filesystem::path::parent_path` for POSIX-style path
strings: everything before the final separator ("/" for a top-level entry,
empty for a single-component relative path). -/
def parent_path (s : String) : String :=
  let l := s.toList
  if l.contains '/' then
    let kept := ((l.reverse.dropWhile (fun c => !(c = '/'))).reverse).dropLast
    if kept.isEmpty then "/" else String.mk kept
  else ""

/-- Embedding of `std::filesystem::path::has_parent_path`. -/
def has_parent_path (s : String) : Bool := !(parent_path s = "")

/-- Embedding of `std::filesystem` path concatenation (`operator/`) for
POSIX-style strings: an absolute right operand replaces the left one. -/
def path_join (a b : String) : String :=
  if b.toList.head? = some '/' then b
  else if a = "" then b
  else if a.toList.getLast? = some '/' then a ++ b
  else a ++ "/" ++ b

/-- Embedding of `std::filesystem::path::filename`: the component after the
final separator. -/
def path_filename (s : String) : String :=
  String.mk ((s.toList.reverse.takeWhile (fun c => !(c = '/'))).reverse)

/-- Embedding of `std::filesystem::path::is_absolute` for POSIX-style strings. -/
def is_absolute (s : String) : Bool := s.toList.head? = some '/'

/-- Abstraction of the `std::filesystem` state consulted by
`parseCommandLine`: the current directory and the `exists` / `is_directory`
queries. -/
structure FileSystem where
  cwd : String
  fsExists : String → Bool
  fsIsDirectory : String → Bool

/-- The messages the command-line front end prints to stderr, one constructor
per distinct `std::cerr` statement, carrying the data interpolated there. -/
inductive Msg where
  | errOptionNeedsValue (opt : String)
  | warnMetafileNotImplemented
  | errRoottypeInvalid
  | errThresholdInvalid
  | errDrangeInvalidValue (t : String)
  | errDrangeNotPositive (v : ℚ)
  | errDrangeNotAscending (v prev : ℚ)
  | errMultipleInputPaths
  | errUnknownOption (a : String)
  | errNoInputPath
  | errOutputPathDoesNotExist (p : String)
  | errOutputFileIsDirectory (p : String)
  | errOutputFileDirDoesNotExist (p : String)
  | warnBrokenRootOptionsIgnored
  | warnBothFactorsSet
  | warnFactorWithoutConvert
  | errDrangesNotSorted
  | errDrangesValueNotPositive (v : ℚ)
  | errDrangesNotAscendingPost
  | warnFgsizeIgnored
  | warnBgsizeIgnored
  | warnSmooththresholdIgnored
  | warnPrunethresholdIgnored
  | warnSsuffixIgnored
  | warnFsuffixIgnored
  | warnOutputFileExistsAppending
  | errCouldNotLoadImage (p : String)
  | errExceptionProcessing (p : String)
  | errNoSupportedImages (p : String)
  | errNoImagesProcessed
  deriving DecidableEq

/-- Embedding of the fields of `feature_config` (feature_config.h) that the
command-line front end reads or writes, with the defaults declared there. -/
structure feature_config where
  inputPath : String := ""
  imagefilename : String := ""
  outputPath : String := ""
  outputFile : String := "features.csv"
  recursive : Bool := false
  verbose : Bool := false
  showHelp : Bool := false
  showHelpMain : Bool := false
  showVersion : Bool := false
  showLicense : Bool := false
  showCredits : Bool := false
  noappend : Bool := false
  consolemode : Bool := false
  roottype : Int := 1
  threshold : Int := 200
  invertimage : Bool := false
  enablesmooththresh : Bool := false
  smooththresh : ℚ := 2
  keepLargest : Bool := true
  filterbknoise : Bool := false
  filterfgnoise : Bool := false
  maxcompsizebk : ℚ := 1
  maxcompsizefg : ℚ := 1
  enableRootPruning : Bool := false
  rootPruningThreshold : Int := 1
  pixelconv : Bool := false
  conversion : ℚ := 1
  pixelspermm : Int := 0
  dranges : List ℚ := [2, 5]
  showConvexHull : Bool := true
  showHoles : Bool := true
  showDistMap : Bool := false
  showMedialAxis : Bool := true
  medialaxiswidth : Int := 3
  showMedialAxisDiameter : Bool := true
  showContours : Bool := true
  contourwidth : Int := 1
  savesegmented : Bool := false
  saveprocessed : Bool := false
  segsuffix : String := ""
  prosuffix : String := ""
  deriving DecidableEq

/-- State threaded through `parseCommandLine`: the config under construction,
the function's local flag variables, the stderr messages printed so far, and
whether an early `return config` has happened. -/
structure ParseState where
  config : feature_config := {}
  contours : Bool := false
  holes : Bool := false
  convexhull : Bool := false
  dpi : Bool := false
  pixels : Bool := false
  fgsize : Bool := false
  bgsize : Bool := false
  smooththreshold : Bool := false
  prunethresh : Bool := false
  ssuffix : Bool := false
  fsuffix : Bool := false
  pixelFactor : ℚ := 1
  dpiFactor : ℚ := 1
  msgs : List Msg := []
  earlyReturn : Bool := false
  deriving DecidableEq

/-- Embedding of `append_checked_positive_ascending`.  The C++ function
validates `v` (positive, and not below the current last element) and throws on
failure, but its body contains no `push_back`: on success the output vector is
returned unchanged, without `v`. -/
def append_checked_positive_ascending (v : ℚ) (out : List ℚ) : Except Msg (List ℚ) :=
  if ¬(v > 0) then Except.error (Msg.errDrangeNotPositive v)
  else if ¬(out = []) ∧ ¬(v ≥ out.getLast!) then
    Except.error (Msg.errDrangeNotAscending v (out.getLast!))
  else Except.ok out

/-- Splits a character list at commas, accumulating the current piece in
reverse. -/
def splitCommaAux : List Char → List Char → List String
  | [], acc => [String.mk acc.reverse]
  | c :: t, acc =>
    if c = ',' then String.mk acc.reverse :: splitCommaAux t []
    else splitCommaAux t (c :: acc)

/-- Comma-separated pieces as produced by repeated `std::getline` with
delimiter `,`: a trailing comma yields no trailing empty piece. -/
def csvPieces (s : String) : List String :=
  if s.toList.getLast? = some ',' then (splitCommaAux s.toList []).dropLast
  else splitCommaAux s.toList []

/-- The piece loop inside the CSV branch of `consume_drange_token`: empty
pieces are skipped, a non-numeric piece or a failed check stops with an error,
and the final result records whether any piece was consumed. -/
def csvLoop : List String → List ℚ → Bool → Bool × List ℚ × Option Msg
  | [], out, sawAny => (sawAny, out, none)
  | piece :: rest, out, sawAny =>
    if trim_ws piece = "" then csvLoop rest out sawAny
    else if ¬(is_positive_number_like (trim_ws piece) = true) then
      (true, out, some (Msg.errDrangeInvalidValue (trim_ws piece)))
    else
      match append_checked_positive_ascending (parsePosNumber (trim_ws piece)) out with
      | Except.ok out2 => csvLoop rest out2 true
      | Except.error m => (true, out, some m)

/-- Embedding of `consume_drange_token`: returns whether the token was a
drange token, the (possibly updated) list, and the parse error if any. -/
def consume_drange_token (raw : String) (out : List ℚ) : Bool × List ℚ × Option Msg :=
  if trim_ws raw = "" then (false, out, none)
  else if (trim_ws raw).toList.head? = some '-' then (false, out, none)
  else if (trim_ws raw).toList.contains ',' then
    csvLoop (csvPieces (trim_ws raw)) out false
  else if is_positive_number_like (trim_ws raw) then
    match append_checked_positive_ascending (parsePosNumber (trim_ws raw)) out with
    | Except.ok out2 => (true, out2, none)
    | Except.error m => (true, out, some m)
  else (false, out, none)

/-- The token-consuming loop of the `--dranges` option (the `j` loop):
returns the collected list, the first error if any, and the unconsumed
argument tail. -/
def drangesScan : List String → List ℚ → List ℚ × Option Msg × List String
  | [], out => (out, none, [])
  | next :: rest, out =>
    if next.toList.head? = some '-' then (out, none, next :: rest)
    else
      match consume_drange_token next out with
      | (wasDrange, out2, err) =>
        if ¬(wasDrange = true) then (out, none, next :: rest)
        else
          match err with
          | some m => (out2, some m, rest)
          | none => drangesScan rest out2

/-- One iteration of the argument loop in `parseCommandLine`: processes
`argv[i]` together with any value tokens it consumes, and returns the updated
state plus the remaining arguments. -/
def parseStep (arg : String) (rest : List String) (st : ParseState) : ParseState × List String :=
  if arg = "-h" ∨ arg = "--help" then
    ({ st with config := { st.config with showHelp := true, showHelpMain := true } }, rest)
  else if arg = "--version" then
    ({ st with config := { st.config with showVersion := true } }, rest)
  else if arg = "--license" then
    ({ st with config := { st.config with showLicense := true } }, rest)
  else if arg = "--credits" then
    ({ st with config := { st.config with showCredits := true } }, rest)
  else if arg = "-na" ∨ arg = "--noappend" then
    ({ st with config := { st.config with noappend := true } }, rest)
  else if arg = "-op" ∨ arg = "--output_path" then
    match rest with
    | v :: rest2 => ({ st with config := { st.config with outputPath := v } }, rest2)
    | [] => ({ st with msgs := st.msgs ++ [Msg.errOptionNeedsValue ("--output_path")],
                       config := { st.config with showHelp := true } }, [])
  else if arg = "-o" ∨ arg = "--output" then
    match rest with
    | v :: rest2 => ({ st with config := { st.config with outputFile := v } }, rest2)
    | [] => ({ st with msgs := st.msgs ++ [Msg.errOptionNeedsValue ("--output")],
                       config := { st.config with showHelp := true } }, [])
  else if arg = "--metafile" then
    match rest with
    | _ :: rest2 => ({ st with msgs := st.msgs ++ [Msg.warnMetafileNotImplemented] }, rest2)
    | [] => ({ st with msgs := st.msgs ++ [Msg.errOptionNeedsValue ("--metafile")],
                       config := { st.config with showHelp := true } }, [])
  else if arg = "-r" ∨ arg = "--recursive" then
    ({ st with config := { st.config with recursive := true } }, rest)
  else if arg = "-v" ∨ arg = "--verbose" then
    ({ st with config := { st.config with verbose := true } }, rest)
  else if arg = "-rt" ∨ arg = "--roottype" then
    match rest with
    | v :: rest2 =>
      if atoiModel v = 0 ∨ atoiModel v = 1 then
        ({ st with config := { st.config with roottype := atoiModel v } }, rest2)
      else
        ({ st with msgs := st.msgs ++ [Msg.errRoottypeInvalid],
                   config := { st.config with showHelp := true } }, rest2)
    | [] => ({ st with msgs := st.msgs ++ [Msg.errOptionNeedsValue ("--roottype")],
                       config := { st.config with showHelp := true } }, [])
  else if arg = "-t" ∨ arg = "--threshold" then
    match rest with
    | v :: rest2 =>
      if 0 ≤ atoiModel v ∧ atoiModel v ≤ 255 then
        ({ st with config := { st.config with threshold := atoiModel v } }, rest2)
      else
        ({ st with msgs := st.msgs ++ [Msg.errThresholdInvalid],
                   config := { st.config with showHelp := true } }, rest2)
    | [] => ({ st with msgs := st.msgs ++ [Msg.errOptionNeedsValue ("--threshold")],
                       config := { st.config with showHelp := true } }, [])
  else if arg = "-i" ∨ arg = "--invert" then
    ({ st with config := { st.config with invertimage := true } }, rest)
  else if arg = "-kl" ∨ arg = "--keeplargest" then
    ({ st with config := { st.config with keepLargest := true } }, rest)
  else if arg = "--bgnoise" then
    ({ st with config := { st.config with filterbknoise := true } }, rest)
  else if arg = "--fgnoise" then
    ({ st with config := { st.config with filterfgnoise := true } }, rest)
  else if arg = "--bgsize" then
    match rest with
    | v :: rest2 =>
      ({ st with bgsize := true, config := { st.config with maxcompsizebk := atofModel v } }, rest2)
    | [] => ({ st with bgsize := true, msgs := st.msgs ++ [Msg.errOptionNeedsValue ("--bgsize")],
                       config := { st.config with showHelp := true } }, [])
  else if arg = "--fgsize" then
    match rest with
    | v :: rest2 =>
      ({ st with fgsize := true, config := { st.config with maxcompsizefg := atofModel v } }, rest2)
    | [] => ({ st with fgsize := true, msgs := st.msgs ++ [Msg.errOptionNeedsValue ("--fgsize")],
                       config := { st.config with showHelp := true } }, [])
  else if arg = "-s" ∨ arg = "--smooth" then
    ({ st with config := { st.config with enablesmooththresh := true } }, rest)
  else if arg = "-st" ∨ arg = "--smooththreshold" then
    match rest with
    | v :: rest2 =>
      ({ st with smooththreshold := true,
                 config := { st.config with smooththresh := atofModel v } }, rest2)
    | [] => ({ st with smooththreshold := true,
                       msgs := st.msgs ++ [Msg.errOptionNeedsValue ("--smooththreshold")],
                       config := { st.config with showHelp := true } }, [])
  else if arg = "--convert" then
    ({ st with config := { st.config with pixelconv := true } }, rest)
  else if arg = "--factordpi" then
    match rest with
    | v :: rest2 => ({ st with dpiFactor := atofModel v, dpi := true }, rest2)
    | [] => ({ st with msgs := st.msgs ++ [Msg.errOptionNeedsValue ("--factordpi")],
                       config := { st.config with showHelp := true } }, [])
  else if arg = "--factorpixels" then
    match rest with
    | v :: rest2 => ({ st with pixelFactor := atofModel v, pixels := true }, rest2)
    | [] => ({ st with msgs := st.msgs ++ [Msg.errOptionNeedsValue ("--factorpixels")],
                       config := { st.config with showHelp := true } }, [])
  else if arg = "--prune" then
    ({ st with config := { st.config with enableRootPruning := true } }, rest)
  else if arg = "-pt" ∨ arg = "--prunethreshold" then
    match rest with
    | v :: rest2 =>
      ({ st with prunethresh := true,
                 config := { st.config with rootPruningThreshold := atoiModel v } }, rest2)
    | [] => ({ st with prunethresh := true,
                       msgs := st.msgs ++ [Msg.errOptionNeedsValue ("--prunethreshold")],
                       config := { st.config with showHelp := true } }, [])
  else if arg = "--dranges" then
    match drangesScan rest [] with
    | (ds, some m, rest2) =>
      ({ st with config := { st.config with dranges := ds, showHelp := true },
                 msgs := st.msgs ++ [m], earlyReturn := true }, rest2)
    | (ds, none, rest2) =>
      ({ st with config := { st.config with dranges := ds } }, rest2)
  else if arg = "--segment" then
    ({ st with config := { st.config with savesegmented := true } }, rest)
  else if arg = "--feature" then
    ({ st with config := { st.config with saveprocessed := true } }, rest)
  else if arg = "--ssuffix" then
    match rest with
    | v :: rest2 =>
      ({ st with ssuffix := true, config := { st.config with segsuffix := v } }, rest2)
    | [] => ({ st with ssuffix := true, msgs := st.msgs ++ [Msg.errOptionNeedsValue ("--ssuffix")],
                       config := { st.config with showHelp := true } }, [])
  else if arg = "--fsuffix" then
    match rest with
    | v :: rest2 =>
      ({ st with fsuffix := true, config := { st.config with prosuffix := v } }, rest2)
    | [] => ({ st with fsuffix := true, msgs := st.msgs ++ [Msg.errOptionNeedsValue ("--fsuffix")],
                       config := { st.config with showHelp := true } }, [])
  else if arg = "-ch" ∨ arg = "--convexhull" then
    ({ st with convexhull := true, config := { st.config with showConvexHull := true } }, rest)
  else if arg = "-ho" ∨ arg = "--holes" then
    ({ st with holes := true, config := { st.config with showHoles := true } }, rest)
  else if arg = "-dm" ∨ arg = "--distancemap" then
    ({ st with config := { st.config with showDistMap := true } }, rest)
  else if arg = "-ma" ∨ arg = "--medialaxis" then
    ({ st with config := { st.config with showMedialAxis := true } }, rest)
  else if arg = "-mw" ∨ arg = "--medialaxiswidth" then
    match rest with
    | v :: rest2 =>
      ({ st with config := { st.config with medialaxiswidth := atoiModel v } }, rest2)
    | [] => ({ st with msgs := st.msgs ++ [Msg.errOptionNeedsValue ("--medialaxiswidth")],
                       config := { st.config with showHelp := true } }, [])
  else if arg = "-to" ∨ arg = "--topology" then
    ({ st with config := { st.config with showMedialAxisDiameter := false } }, rest)
  else if arg = "-co" ∨ arg = "--contours" then
    ({ st with contours := true, config := { st.config with showContours := true } }, rest)
  else if arg = "-cw" ∨ arg = "--contourwidth" then
    match rest with
    | v :: rest2 =>
      ({ st with config := { st.config with contourwidth := atoiModel v } }, rest2)
    | [] => ({ st with msgs := st.msgs ++ [Msg.errOptionNeedsValue ("--contourwidth")],
                       config := { st.config with showHelp := true } }, [])
  else if ¬(arg.toList.head? = some '-') then
    if st.config.inputPath = "" then
      ({ st with config := { st.config with inputPath := arg } }, rest)
    else
      ({ st with msgs := st.msgs ++ [Msg.errMultipleInputPaths],
                 config := { st.config with showHelp := true } }, rest)
  else
    ({ st with msgs := st.msgs ++ [Msg.errUnknownOption arg],
               config := { st.config with showHelp := true } }, rest)

/-- The argument loop of `parseCommandLine`.  The fuel argument only bounds
the number of iterations; since every step consumes at least the current
argument, fuel equal to the argument count makes the loop run to completion
exactly as the C++ `for` loop does.  An early `return config` inside the loop
(the `--dranges` error path) stops the iteration. -/
def parseLoop : Nat → List String → ParseState → ParseState
  | _, [], st => st
  | 0, _ :: _, st => st
  | Nat.succ fuel, arg :: rest, st =>
    match parseStep arg rest st with
    | (st2, rest2) => if st2.earlyReturn = true then st2 else parseLoop fuel rest2 st2

/-- Runs a later phase of `parseCommandLine` only when no earlier phase has
already returned. -/
def unlessEarly (f : ParseState → ParseState) (st : ParseState) : ParseState :=
  if st.earlyReturn = true then st else f st

/-- Lines 573-583 of mv.cpp: with no input path the function returns, with an
error and help request unless an informational flag was given. -/
def inputPathPhase (st : ParseState) : ParseState :=
  if st.config.inputPath = "" then
    if ¬(st.config.showHelp = true ∨ st.config.showVersion = true ∨
          st.config.showLicense = true ∨ st.config.showCredits = true) then
      { st with msgs := st.msgs ++ [Msg.errNoInputPath],
                config := { st.config with showHelp := true }, earlyReturn := true }
    else { st with earlyReturn := true }
  else st

/-- Lines 585-599 of mv.cpp: an empty output path defaults to the input
directory when the input is a directory, else to the input file's parent
directory (made absolute against the working directory when needed). -/
def outputPathDefaultPhase (fsys : FileSystem) (st : ParseState) : ParseState :=
  if st.config.outputPath = "" then
    { st with config :=
        { st.config with outputPath :=
            if fsys.fsIsDirectory st.config.inputPath then st.config.inputPath
            else if has_parent_path st.config.inputPath = true ∧
                    ¬(parent_path st.config.inputPath = "") then parent_path st.config.inputPath
            else parent_path (path_join fsys.cwd st.config.inputPath) } }
  else st

/-- Lines 601-645 of mv.cpp: the output-path existence check and the
resolution of the output CSV file path (directory check, absolute paths used
as given, relative paths combined with the output path). -/
def outputFilePhase (fsys : FileSystem) (st : ParseState) : ParseState :=
  if ¬(fsys.fsExists st.config.outputPath = true) then
    { st with msgs := st.msgs ++ [Msg.errOutputPathDoesNotExist st.config.outputPath],
              config := { st.config with showHelp := true }, earlyReturn := true }
  else if ¬(st.config.outputFile = "") then
    if fsys.fsIsDirectory st.config.outputFile then
      { st with msgs := st.msgs ++ [Msg.errOutputFileIsDirectory st.config.outputFile],
                config := { st.config with showHelp := true }, earlyReturn := true }
    else if is_absolute st.config.outputFile then
      if has_parent_path st.config.outputFile = true ∧
          ¬(parent_path st.config.outputFile = "") ∧
          ¬(fsys.fsExists (parent_path st.config.outputFile) = true) then
        { st with msgs := st.msgs ++
                  [Msg.errOutputFileDirDoesNotExist (parent_path st.config.outputFile)],
                  config := { st.config with showHelp := true }, earlyReturn := true }
      else st
    else
      match path_join st.config.outputPath st.config.outputFile with
      | combinedPath =>
        if has_parent_path combinedPath = true ∧ ¬(parent_path combinedPath = "") ∧
            ¬(fsys.fsExists (parent_path combinedPath) = true) then
          { st with msgs := st.msgs ++
                    [Msg.errOutputFileDirDoesNotExist (parent_path combinedPath)],
                    config := { st.config with showHelp := true }, earlyReturn := true }
        else
          { st with config := { st.config with outputFile := combinedPath } }
  else
    { st with config := { st.config with
                          outputFile := path_join st.config.outputPath ("features.csv") } }

/-- Lines 573-645 of mv.cpp: the missing-input check, output-path defaulting,
the output-path existence check and output-file resolution, in source order
with the early returns threaded through. -/
def finishInputOutput (fsys : FileSystem) (st : ParseState) : ParseState :=
  unlessEarly (outputFilePhase fsys) (unlessEarly (outputPathDefaultPhase fsys) (inputPathPhase st))

/-- Lines 647-653 of mv.cpp: in broken-roots mode the convex-hull, holes and
contours display flags are forced off, with a warning, when any of them was
requested on the command line. -/
def fixupBrokenRoot (st : ParseState) : ParseState :=
  if st.config.roottype = 1 ∧
      (st.convexhull = true ∨ st.holes = true ∨ st.contours = true) then
    { st with msgs := st.msgs ++ [Msg.warnBrokenRootOptionsIgnored],
              config := { st.config with showConvexHull := false, showHoles := false,
                                         showContours := false } }
  else st

/-- Lines 655-682 of mv.cpp: resolution of the unit-conversion factor. -/
def pixelconvPhase (st : ParseState) : ParseState :=
  if st.config.pixelconv = true then
    if st.pixels = true then
      if st.dpi = true then
        { st with config := { st.config with conversion := st.pixelFactor, pixelspermm := 1 },
                  msgs := st.msgs ++ [Msg.warnBothFactorsSet] }
      else
        { st with config := { st.config with conversion := st.pixelFactor, pixelspermm := 1 } }
    else if st.dpi = true then
      { st with config := { st.config with conversion := st.dpiFactor, pixelspermm := 0 } }
    else
      { st with config := { st.config with conversion := 1, pixelspermm := 0 } }
  else
    if st.dpi = true ∨ st.pixels = true then
      { st with msgs := st.msgs ++ [Msg.warnFactorWithoutConvert],
                config := { st.config with conversion := 1, pixelspermm := 0 } }
    else
      { st with config := { st.config with conversion := 1, pixelspermm := 0 } }

/-- `std::is_sorted` with the default comparison: no element below its
predecessor. -/
def isSortedLe : List ℚ → Bool
  | [] => true
  | [_] => true
  | a :: b :: t => (a ≤ b : Bool) && isSortedLe (b :: t)

/-- Lines 684-690 of mv.cpp: the `std::is_sorted` check over the parsed
dranges. -/
def drangesSortPhase (st : ParseState) : ParseState :=
  if 0 < st.config.dranges.length ∧ ¬(isSortedLe st.config.dranges = true) then
    { st with msgs := st.msgs ++ [Msg.errDrangesNotSorted],
              config := { st.config with showHelp := true }, earlyReturn := true }
  else st

/-- The element loop of the dranges validation (lines 692-708 of mv.cpp):
the first violation found, scanning left to right, positivity before the
ascending comparison with the previous element. -/
def validateDrangesAux : Option ℚ → List ℚ → Option Msg
  | _, [] => none
  | prev, v :: t =>
    if ¬(v > 0) then some (Msg.errDrangesValueNotPositive v)
    else
      match prev with
      | some p =>
        if ¬(v ≥ p) then some Msg.errDrangesNotAscendingPost
        else validateDrangesAux (some v) t
      | none => validateDrangesAux (some v) t

/-- Lines 692-708 of mv.cpp: per-element validation of the parsed dranges. -/
def drangesValidatePhase (st : ParseState) : ParseState :=
  match validateDrangesAux none st.config.dranges with
  | some m =>
    { st with msgs := st.msgs ++ [m],
              config := { st.config with showHelp := true }, earlyReturn := true }
  | none => st

/-- Line 710-711 of mv.cpp: --fgsize without --fgnoise. -/
def warnFgsizeStep (st : ParseState) : ParseState :=
  if st.fgsize = true ∧ ¬(st.config.filterfgnoise = true) then
    { st with msgs := st.msgs ++ [Msg.warnFgsizeIgnored] }
  else st

/-- Line 712-713 of mv.cpp: --bgsize without --bgnoise. -/
def warnBgsizeStep (st : ParseState) : ParseState :=
  if st.bgsize = true ∧ ¬(st.config.filterbknoise = true) then
    { st with msgs := st.msgs ++ [Msg.warnBgsizeIgnored] }
  else st

/-- Line 714-715 of mv.cpp: --smooththreshold without --smooth. -/
def warnSmooththresholdStep (st : ParseState) : ParseState :=
  if st.smooththreshold = true ∧ ¬(st.config.enablesmooththresh = true) then
    { st with msgs := st.msgs ++ [Msg.warnSmooththresholdIgnored] }
  else st

/-- Line 716-717 of mv.cpp: --prunethreshold without --prune. -/
def warnPrunethresholdStep (st : ParseState) : ParseState :=
  if st.prunethresh = true ∧ ¬(st.config.enableRootPruning = true) then
    { st with msgs := st.msgs ++ [Msg.warnPrunethresholdIgnored] }
  else st

/-- Line 718-719 of mv.cpp: --ssuffix without --segment. -/
def warnSsuffixStep (st : ParseState) : ParseState :=
  if st.ssuffix = true ∧ ¬(st.config.savesegmented = true) then
    { st with msgs := st.msgs ++ [Msg.warnSsuffixIgnored] }
  else st

/-- Line 720-721 of mv.cpp: --fsuffix without --feature. -/
def warnFsuffixStep (st : ParseState) : ParseState :=
  if st.fsuffix = true ∧ ¬(st.config.saveprocessed = true) then
    { st with msgs := st.msgs ++ [Msg.warnFsuffixIgnored] }
  else st

/-- Lines 710-721 of mv.cpp: the six dependent-option warnings, in source
order. -/
def warningsPhase (st : ParseState) : ParseState :=
  warnFsuffixStep (warnSsuffixStep (warnPrunethresholdStep
    (warnSmooththresholdStep (warnBgsizeStep (warnFgsizeStep st)))))

/-- The state of `parseCommandLine` at entry: defaults plus the two suffix
fields assigned in its first statements. -/
def initParseState : ParseState :=
  { config := { segsuffix := "_seg", prosuffix := "_features" } }

/-- The front part of `parseCommandLine`: the argument loop (argv includes
the program name at index 0, which the loop skips) followed by the
input/output path resolution.  Split out so the later fix-up phases can be
reasoned about separately. -/
def parsePreFixup (fsys : FileSystem) (argv : List String) : ParseState :=
  unlessEarly (finishInputOutput fsys)
    (parseLoop (argv.drop 1).length (argv.drop 1) initParseState)

/-- Embedding of `parseCommandLine`: the argument loop followed by the
post-loop validation and fix-up phases, in source order. -/
def parseCommandLine (fsys : FileSystem) (argv : List String) : ParseState :=
  unlessEarly warningsPhase
    (unlessEarly drangesValidatePhase
      (unlessEarly drangesSortPhase
        (unlessEarly pixelconvPhase
          (unlessEarly fixupBrokenRoot (parsePreFixup fsys argv)))))

/-- Abstraction of the IEEE doubles stored in the feature vector: an exact
rational, or one of the non-finite values NaN, +inf, -inf. -/
inductive DVal where
  | nan
  | pinf
  | ninf
  | fin (q : ℚ)
  deriving DecidableEq

/-- The `isnan` test on a modelled double. -/
def dIsNan : DVal → Bool
  | DVal.nan => true
  | _ => false

/-- The `isinf` test on a modelled double. -/
def dIsInf : DVal → Bool
  | DVal.pinf => true
  | DVal.ninf => true
  | _ => false

/-- The `feature == 0.0` test on a modelled double (false for NaN and inf,
as in IEEE comparison). -/
def dEqZero : DVal → Bool
  | DVal.fin q => decide (q = 0)
  | _ => false

/-- The rational carried by a finite modelled double (unused branches of the
serializer never read the non-finite cases). -/
def dVal : DVal → ℚ
  | DVal.fin q => q
  | _ => 0

/-- A cell of the produced CSV: a plain string, the literal token NA, or a
numeric value printed with the given stream precision (significant digits). -/
inductive CsvCell where
  | str (s : String)
  | na
  | num (prec : Int) (v : ℚ)
  deriving DecidableEq

/-- Embedding of the per-feature branch of `writeResultsToCsv` (lines
1040-1048 of mv.cpp): finite nonzero values print with precision
`ceil(log10(abs(v))) + 6`, exact zero with precision 6, NaN and infinities as
NA.  `Int.clog 10` is the exact ceiling base-10 logarithm on the rationals. -/
def serializeFeature (feature : DVal) : CsvCell :=
  if ¬(dIsNan feature = true ∨ dIsInf feature = true ∨ dEqZero feature = true) then
    CsvCell.num (Int.clog 10 |dVal feature| + 6) (dVal feature)
  else if dEqZero feature = true then CsvCell.num 6 (dVal feature)
  else CsvCell.na

/-- The N+1 binned-series column names of one series: prefix, range number
starting at 1, unit suffix (the `k <= dranges.size()` loops of
`writeCsvHeader`). -/
def rangeCols (pre suf : String) (n : Nat) : List String :=
  (List.range (n + 1)).map (fun k => pre ++ toString (k + 1) ++ suf)

/-- Embedding of `writeCsvHeader` (lines 960-1003 of mv.cpp) as the list of
column names it prints, in print order. -/
def writeCsvHeader (config : feature_config) : List String :=
  let ul := if config.pixelconv = true then ".mm" else ".px"
  let ua := if config.pixelconv = true then ".mm2" else ".px2"
  let uv := if config.pixelconv = true then ".mm3" else ".px3"
  let upl := if config.pixelconv = true then ".per.mm" else ".per.px"
  if config.roottype = 0 then
    ["File.Name", "Region.of.Interest", "Median.Number.of.Roots", "Maximum.Number.of.Roots",
     "Number.of.Root.Tips", "Total.Root.Length" ++ ul, "Depth" ++ ul, "Maximum.Width" ++ ul,
     "Width-to-Depth.Ratio", "Network.Area" ++ ua, "Convex.Area" ++ ua, "Solidity",
     "Lower.Root.Area" ++ ua, "Average.Diameter" ++ ul, "Median.Diameter" ++ ul,
     "Maximum.Diameter" ++ ul, "Perimeter" ++ ul, "Volume" ++ uv, "Surface.Area" ++ ua,
     "Holes", "Average.Hole.Size" ++ ua, "Computation.Time.s", "Average.Root.Orientation.deg",
     "Shallow.Angle.Frequency", "Medium.Angle.Frequency", "Steep.Angle.Frequency"]
    ++ rangeCols ("Root.Length.Diameter.Range.") ul config.dranges.length
    ++ rangeCols ("Projected.Area.Diameter.Range.") ua config.dranges.length
    ++ rangeCols ("Surface.Area.Diameter.Range.") ua config.dranges.length
    ++ rangeCols ("Volume.Diameter.Range.") uv config.dranges.length
  else
    ["File.Name", "Region.of.Interest", "Number.of.Root.Tips", "Number.of.Branch.Points",
     "Total.Root.Length" ++ ul, "Branching.frequency" ++ upl, "Network.Area" ++ ua,
     "Average.Diameter" ++ ul, "Median.Diameter" ++ ul, "Maximum.Diameter" ++ ul,
     "Perimeter" ++ ul, "Volume" ++ uv, "Surface.Area" ++ ua, "Computation.Time.s"]
    ++ rangeCols ("Root.Length.Diameter.Range.") ul config.dranges.length
    ++ rangeCols ("Projected.Area.Diameter.Range.") ua config.dranges.length
    ++ rangeCols ("Surface.Area.Diameter.Range.") ua config.dranges.length
    ++ rangeCols ("Volume.Diameter.Range.") uv config.dranges.length

/-- One data row of `writeResultsToCsv`: the file name component of the image
path, the ROI name, then the serialized features. -/
def csvRow (file roi : String) (features : List DVal) : List CsvCell :=
  CsvCell.str (path_filename file) :: CsvCell.str roi :: features.map serializeFeature

/-- The row loop of `writeResultsToCsv`: one row per processed image,
features and ROI names taken positionally. -/
def csvRows : List String → List (List DVal) → List String → List (List CsvCell)
  | f :: fs, feats :: featss, roi :: rois => csvRow f roi feats :: csvRows fs featss rois
  | _, _, _ => []

/-- Embedding of `writeResultsToCsv` (lines 1006-1057 of mv.cpp).  The output
file is always opened with `std::ios::app`, so the previous contents `old`
stay in place; a header line is written first exactly when the file did not
exist or `noappend` is set.  Returns the new file contents and the stderr
messages. -/
def writeResultsToCsv (config : feature_config) (fileExists : Bool)
    (old : List (List CsvCell)) (imageFiles : List String)
    (allFeatures : List (List DVal)) (roiNames : List String) :
    List (List CsvCell) × List Msg :=
  let ms := if ¬(config.noappend = true) ∧ fileExists = true ∧ config.verbose = true then
      [Msg.warnOutputFileExistsAppending] else []
  let base := if ¬(fileExists = true) ∨ config.noappend = true then
      old ++ [(writeCsvHeader config).map CsvCell.str] else old
  (base ++ csvRows imageFiles allFeatures roiNames, ms)

/-- Outcome of `analyzeImage` on one file: success with the extracted feature
vector, a failed `cv::imread`, or an exception thrown during analysis. -/
inductive AnalyzeOutcome where
  | ok (features : List DVal)
  | loadFail
  | exnFail
  deriving DecidableEq

/-- The stderr messages `analyzeImage` prints for one file (lines 845-848 and
952-956 of mv.cpp); both failure messages carry the image path. -/
def analyzeMsgs (path : String) : AnalyzeOutcome → List Msg
  | AnalyzeOutcome.ok _ => []
  | AnalyzeOutcome.loadFail => [Msg.errCouldNotLoadImage path]
  | AnalyzeOutcome.exnFail => [Msg.errExceptionProcessing path]

/-- Whether `analyzeImage` returns true for this outcome. -/
def analyzeOk : AnalyzeOutcome → Bool
  | AnalyzeOutcome.ok _ => true
  | _ => false

/-- The per-image loop of `main` (lines 1188-1231 of mv.cpp), with
`analyzeImage` abstracted into an oracle from image path to outcome.
Returns (allFeatures, processedFiles, roinames, stderr messages). -/
def batchLoop (analyze : String → AnalyzeOutcome) :
    List String → List (List DVal) × List String × List String × List Msg
  | [] => ([], [], [], [])
  | f :: fs =>
    match batchLoop analyze fs, analyze f with
    | (af, pf, rn, ms), AnalyzeOutcome.ok feats => (feats :: af, f :: pf, "Full" :: rn, ms)
    | (af, pf, rn, ms), o => (af, pf, rn, analyzeMsgs f o ++ ms)

/-- Result of a `main` invocation: the process exit code, the list of image
paths on which `analyzeImage` was invoked, the final contents of the output
CSV file, and the stderr messages. -/
structure MainResult where
  exitCode : Int
  analyzed : List String
  fileLines : List (List CsvCell)
  msgs : List Msg
  deriving DecidableEq

/-- Embedding of `main` after `parseCommandLine` (lines 1101-1244 of mv.cpp):
the help / version / license / credits exits, the empty-image-list exit, the
per-image loop, the no-successes exit, and the final CSV write.
`imageFiles` abstracts the result of `collectImageFiles`; `csvExists` and
`oldCsv` abstract the prior state of the output file. -/
def mainRun (pr : ParseState) (imageFiles : List String)
    (analyze : String → AnalyzeOutcome) (csvExists : Bool)
    (oldCsv : List (List CsvCell)) : MainResult :=
  if pr.config.showHelp = true then
    { exitCode := if ¬(pr.config.showHelpMain = true) then 1 else 0,
      analyzed := [], fileLines := oldCsv, msgs := pr.msgs }
  else if pr.config.showVersion = true then
    { exitCode := 0, analyzed := [], fileLines := oldCsv, msgs := pr.msgs }
  else if pr.config.showLicense = true then
    { exitCode := 0, analyzed := [], fileLines := oldCsv, msgs := pr.msgs }
  else if pr.config.showCredits = true then
    { exitCode := 0, analyzed := [], fileLines := oldCsv, msgs := pr.msgs }
  else if imageFiles = [] then
    { exitCode := 1, analyzed := [], fileLines := oldCsv,
      msgs := pr.msgs ++ [Msg.errNoSupportedImages pr.config.inputPath] }
  else
    match batchLoop analyze imageFiles with
    | (af, pf, rn, bms) =>
      if pf = [] then
        { exitCode := 1, analyzed := imageFiles, fileLines := oldCsv,
          msgs := pr.msgs ++ bms ++ [Msg.errNoImagesProcessed] }
      else
        match writeResultsToCsv pr.config csvExists oldCsv pf af rn with
        | (outLines, wms) =>
          { exitCode := 0, analyzed := imageFiles, fileLines := outLines,
            msgs := pr.msgs ++ bms ++ wms }

/-- The four unit suffix strings selected at the top of `writeCsvHeader`. -/
structure UnitSuffixes where
  ulen : String
  uarea : String
  uvol : String
  uperlen : String
  deriving DecidableEq

/-- The pixel-unit suffix pack (conversion inactive). -/
def pxUnits : UnitSuffixes :=
  { ulen := ".px", uarea := ".px2", uvol := ".px3", uperlen := ".per.px" }

/-- The millimetre-unit suffix pack (conversion active). -/
def mmUnits : UnitSuffixes :=
  { ulen := ".mm", uarea := ".mm2", uvol := ".mm3", uperlen := ".per.mm" }

/-- The CSV header as the spec describes it: the same column layout with the
unit-suffix pack as an explicit parameter, so that dependence of the suffixes
on the conversion flag alone can be stated. -/
def headerTemplate (roottype : Int) (n : Nat) (u : UnitSuffixes) : List String :=
  if roottype = 0 then
    ["File.Name", "Region.of.Interest", "Median.Number.of.Roots", "Maximum.Number.of.Roots",
     "Number.of.Root.Tips", "Total.Root.Length" ++ u.ulen, "Depth" ++ u.ulen,
     "Maximum.Width" ++ u.ulen, "Width-to-Depth.Ratio", "Network.Area" ++ u.uarea,
     "Convex.Area" ++ u.uarea, "Solidity", "Lower.Root.Area" ++ u.uarea,
     "Average.Diameter" ++ u.ulen, "Median.Diameter" ++ u.ulen, "Maximum.Diameter" ++ u.ulen,
     "Perimeter" ++ u.ulen, "Volume" ++ u.uvol, "Surface.Area" ++ u.uarea, "Holes",
     "Average.Hole.Size" ++ u.uarea, "Computation.Time.s", "Average.Root.Orientation.deg",
     "Shallow.Angle.Frequency", "Medium.Angle.Frequency", "Steep.Angle.Frequency"]
    ++ rangeCols ("Root.Length.Diameter.Range.") u.ulen n
    ++ rangeCols ("Projected.Area.Diameter.Range.") u.uarea n
    ++ rangeCols ("Surface.Area.Diameter.Range.") u.uarea n
    ++ rangeCols ("Volume.Diameter.Range.") u.uvol n
  else
    ["File.Name", "Region.of.Interest", "Number.of.Root.Tips", "Number.of.Branch.Points",
     "Total.Root.Length" ++ u.ulen, "Branching.frequency" ++ u.uperlen,
     "Network.Area" ++ u.uarea, "Average.Diameter" ++ u.ulen, "Median.Diameter" ++ u.ulen,
     "Maximum.Diameter" ++ u.ulen, "Perimeter" ++ u.ulen, "Volume" ++ u.uvol,
     "Surface.Area" ++ u.uarea, "Computation.Time.s"]
    ++ rangeCols ("Root.Length.Diameter.Range.") u.ulen n
    ++ rangeCols ("Projected.Area.Diameter.Range.") u.uarea n
    ++ rangeCols ("Surface.Area.Diameter.Range.") u.uarea n
    ++ rangeCols ("Volume.Diameter.Range.") u.uvol n

/-- The numeric-field encoding exactly as the spec states it: NaN or infinite
values give NA, exact zero gets 6 significant digits, any other value gets
`ceil(log10(abs(v))) + 6` significant digits. -/
def specEncoding : DVal → CsvCell
  | DVal.nan => CsvCell.na
  | DVal.pinf => CsvCell.na
  | DVal.ninf => CsvCell.na
  | DVal.fin q => if q = 0 then CsvCell.num 6 0 else CsvCell.num (Int.clog 10 |q| + 6) q

/-- A concrete filesystem for evaluating the parser: working directory
`/data`, which is the only existing path; nothing is a directory. -/
def testFS : FileSystem :=
  { cwd := "/data",
    fsExists := fun p => decide (p = "/data"),
    fsIsDirectory := fun _ => false }

/-- A command line supplying every dependent value-option (and a conversion
factor) without its parent feature enabled. -/
def c8Argv : List String :=
  [("rv"), ("--fgsize"), ("1"), ("--bgsize"), ("2"), ("--smooththreshold"), ("3"),
   ("--prunethreshold"), ("4"), ("--ssuffix"), ("sfx"), ("--fsuffix"), ("pfx"),
   ("--factordpi"), ("5"), ("img.png")]

theorem unlessEarly_not_early (f : ParseState → ParseState) (st : ParseState)
    (h : st.earlyReturn = false) : unlessEarly f st = f st := by
  unfold unlessEarly; simp [h]

theorem finishInputOutput_eq (fsys : FileSystem) (st : ParseState) :
    finishInputOutput fsys st =
      unlessEarly (outputFilePhase fsys)
        (unlessEarly (outputPathDefaultPhase fsys) (inputPathPhase st)) := rfl

/-- Case --fgsize of the dependent-option warnings: supplied without its parent
feature, parsing warns, does not request help, and leaves the parent feature
disabled. -/
theorem c8aux_fgsize (v : String) :
    (parseCommandLine testFS [("rv"), ("--fgsize"), v, ("img.png")]).msgs = [Msg.warnFgsizeIgnored]
    ∧ (parseCommandLine testFS [("rv"), ("--fgsize"), v, ("img.png")]).config.showHelp = false
    ∧ (parseCommandLine testFS [("rv"), ("--fgsize"), v, ("img.png")]).config.filterfgnoise = false := by
  have h1 : parseLoop 3 [("--fgsize"), v, ("img.png")] initParseState =
      { config := { inputPath := "img.png", maxcompsizefg := atofModel v, segsuffix := "_seg", prosuffix := "_features" }, fgsize := true } := rfl
  have h2w : unlessEarly (finishInputOutput testFS)
      ({ config := { inputPath := "img.png", maxcompsizefg := atofModel v, segsuffix := "_seg", prosuffix := "_features" }, fgsize := true }) =
      finishInputOutput testFS
      ({ config := { inputPath := "img.png", maxcompsizefg := atofModel v, segsuffix := "_seg", prosuffix := "_features" }, fgsize := true }) :=
    unlessEarly_not_early _ _ rfl
  have h2a : inputPathPhase ({ config := { inputPath := "img.png", maxcompsizefg := atofModel v, segsuffix := "_seg", prosuffix := "_features" }, fgsize := true }) =
      { config := { inputPath := "img.png", maxcompsizefg := atofModel v, segsuffix := "_seg", prosuffix := "_features" }, fgsize := true } := rfl
  have h2b : unlessEarly (outputPathDefaultPhase testFS)
      ({ config := { inputPath := "img.png", maxcompsizefg := atofModel v, segsuffix := "_seg", prosuffix := "_features" }, fgsize := true }) =
      { config := { inputPath := "img.png", maxcompsizefg := atofModel v, outputPath := "/data", segsuffix := "_seg", prosuffix := "_features" }, fgsize := true } := rfl
  have h2c : unlessEarly (outputFilePhase testFS)
      ({ config := { inputPath := "img.png", maxcompsizefg := atofModel v, outputPath := "/data", segsuffix := "_seg", prosuffix := "_features" }, fgsize := true }) =
      { config := { inputPath := "img.png", maxcompsizefg := atofModel v, outputPath := "/data", outputFile := "/data/features.csv", segsuffix := "_seg", prosuffix := "_features" }, fgsize := true } := rfl
  have h3 : unlessEarly fixupBrokenRoot
      ({ config := { inputPath := "img.png", maxcompsizefg := atofModel v, outputPath := "/data", outputFile := "/data/features.csv", segsuffix := "_seg", prosuffix := "_features" }, fgsize := true }) =
      { config := { inputPath := "img.png", maxcompsizefg := atofModel v, outputPath := "/data", outputFile := "/data/features.csv", segsuffix := "_seg", prosuffix := "_features" }, fgsize := true } := rfl
  have h4 : unlessEarly pixelconvPhase
      ({ config := { inputPath := "img.png", maxcompsizefg := atofModel v, outputPath := "/data", outputFile := "/data/features.csv", segsuffix := "_seg", prosuffix := "_features" }, fgsize := true }) =
      { config := { inputPath := "img.png", maxcompsizefg := atofModel v, outputPath := "/data", outputFile := "/data/features.csv", segsuffix := "_seg", prosuffix := "_features" }, fgsize := true } := rfl
  have h5 : unlessEarly drangesSortPhase
      ({ config := { inputPath := "img.png", maxcompsizefg := atofModel v, outputPath := "/data", outputFile := "/data/features.csv", segsuffix := "_seg", prosuffix := "_features" }, fgsize := true }) =
      { config := { inputPath := "img.png", maxcompsizefg := atofModel v, outputPath := "/data", outputFile := "/data/features.csv", segsuffix := "_seg", prosuffix := "_features" }, fgsize := true } := rfl
  have h6 : unlessEarly drangesValidatePhase
      ({ config := { inputPath := "img.png", maxcompsizefg := atofModel v, outputPath := "/data", outputFile := "/data/features.csv", segsuffix := "_seg", prosuffix := "_features" }, fgsize := true }) =
      { config := { inputPath := "img.png", maxcompsizefg := atofModel v, outputPath := "/data", outputFile := "/data/features.csv", segsuffix := "_seg", prosuffix := "_features" }, fgsize := true } := rfl
  have h7 : unlessEarly warningsPhase
      ({ config := { inputPath := "img.png", maxcompsizefg := atofModel v, outputPath := "/data", outputFile := "/data/features.csv", segsuffix := "_seg", prosuffix := "_features" }, fgsize := true }) =
      { config := { inputPath := "img.png", maxcompsizefg := atofModel v, outputPath := "/data", outputFile := "/data/features.csv", segsuffix := "_seg", prosuffix := "_features" }, fgsize := true, msgs := [Msg.warnFgsizeIgnored] } := rfl
  have hall : parseCommandLine testFS [("rv"), ("--fgsize"), v, ("img.png")] =
      { config := { inputPath := "img.png", maxcompsizefg := atofModel v, outputPath := "/data", outputFile := "/data/features.csv", segsuffix := "_seg", prosuffix := "_features" }, fgsize := true, msgs := [Msg.warnFgsizeIgnored] } := by
    show unlessEarly warningsPhase (unlessEarly drangesValidatePhase (unlessEarly drangesSortPhase
      (unlessEarly pixelconvPhase (unlessEarly fixupBrokenRoot (unlessEarly (finishInputOutput testFS)
        (parseLoop 3 [("--fgsize"), v, ("img.png")] initParseState)))))) = _
    rw [h1, h2w, finishInputOutput_eq, h2a, h2b, h2c, h3, h4, h5, h6, h7]
  rw [hall]
  exact ⟨rfl, rfl, rfl⟩


/-- Case --bgsize of the dependent-option warnings: supplied without its parent
feature, parsing warns, does not request help, and leaves the parent feature
disabled. -/
theorem c8aux_bgsize (v : String) :
    (parseCommandLine testFS [("rv"), ("--bgsize"), v, ("img.png")]).msgs = [Msg.warnBgsizeIgnored]
    ∧ (parseCommandLine testFS [("rv"), ("--bgsize"), v, ("img.png")]).config.showHelp = false
    ∧ (parseCommandLine testFS [("rv"), ("--bgsize"), v, ("img.png")]).config.filterbknoise = false := by
  have h1 : parseLoop 3 [("--bgsize"), v, ("img.png")] initParseState =
      { config := { inputPath := "img.png", maxcompsizebk := atofModel v, segsuffix := "_seg", prosuffix := "_features" }, bgsize := true } := rfl
  have h2w : unlessEarly (finishInputOutput testFS)
      ({ config := { inputPath := "img.png", maxcompsizebk := atofModel v, segsuffix := "_seg", prosuffix := "_features" }, bgsize := true }) =
      finishInputOutput testFS
      ({ config := { inputPath := "img.png", maxcompsizebk := atofModel v, segsuffix := "_seg", prosuffix := "_features" }, bgsize := true }) :=
    unlessEarly_not_early _ _ rfl
  have h2a : inputPathPhase ({ config := { inputPath := "img.png", maxcompsizebk := atofModel v, segsuffix := "_seg", prosuffix := "_features" }, bgsize := true }) =
      { config := { inputPath := "img.png", maxcompsizebk := atofModel v, segsuffix := "_seg", prosuffix := "_features" }, bgsize := true } := rfl
  have h2b : unlessEarly (outputPathDefaultPhase testFS)
      ({ config := { inputPath := "img.png", maxcompsizebk := atofModel v, segsuffix := "_seg", prosuffix := "_features" }, bgsize := true }) =
      { config := { inputPath := "img.png", maxcompsizebk := atofModel v, outputPath := "/data", segsuffix := "_seg", prosuffix := "_features" }, bgsize := true } := rfl
  have h2c : unlessEarly (outputFilePhase testFS)
      ({ config := { inputPath := "img.png", maxcompsizebk := atofModel v, outputPath := "/data", segsuffix := "_seg", prosuffix := "_features" }, bgsize := true }) =
      { config := { inputPath := "img.png", maxcompsizebk := atofModel v, outputPath := "/data", outputFile := "/data/features.csv", segsuffix := "_seg", prosuffix := "_features" }, bgsize := true } := rfl
  have h3 : unlessEarly fixupBrokenRoot
      ({ config := { inputPath := "img.png", maxcompsizebk := atofModel v, outputPath := "/data", outputFile := "/data/features.csv", segsuffix := "_seg", prosuffix := "_features" }, bgsize := true }) =
      { config := { inputPath := "img.png", maxcompsizebk := atofModel v, outputPath := "/data", outputFile := "/data/features.csv", segsuffix := "_seg", prosuffix := "_features" }, bgsize := true } := rfl
  have h4 : unlessEarly pixelconvPhase
      ({ config := { inputPath := "img.png", maxcompsizebk := atofModel v, outputPath := "/data", outputFile := "/data/features.csv", segsuffix := "_seg", prosuffix := "_features" }, bgsize := true }) =
      { config := { inputPath := "img.png", maxcompsizebk := atofModel v, outputPath := "/data", outputFile := "/data/features.csv", segsuffix := "_seg", prosuffix := "_features" }, bgsize := true } := rfl
  have h5 : unlessEarly drangesSortPhase
      ({ config := { inputPath := "img.png", maxcompsizebk := atofModel v, outputPath := "/data", outputFile := "/data/features.csv", segsuffix := "_seg", prosuffix := "_features" }, bgsize := true }) =
      { config := { inputPath := "img.png", maxcompsizebk := atofModel v, outputPath := "/data", outputFile := "/data/features.csv", segsuffix := "_seg", prosuffix := "_features" }, bgsize := true } := rfl
  have h6 : unlessEarly drangesValidatePhase
      ({ config := { inputPath := "img.png", maxcompsizebk := atofModel v, outputPath := "/data", outputFile := "/data/features.csv", segsuffix := "_seg", prosuffix := "_features" }, bgsize := true }) =
      { config := { inputPath := "img.png", maxcompsizebk := atofModel v, outputPath := "/data", outputFile := "/data/features.csv", segsuffix := "_seg", prosuffix := "_features" }, bgsize := true } := rfl
  have h7 : unlessEarly warningsPhase
      ({ config := { inputPath := "img.png", maxcompsizebk := atofModel v, outputPath := "/data", outputFile := "/data/features.csv", segsuffix := "_seg", prosuffix := "_features" }, bgsize := true }) =
      { config := { inputPath := "img.png", maxcompsizebk := atofModel v, outputPath := "/data", outputFile := "/data/features.csv", segsuffix := "_seg", prosuffix := "_features" }, bgsize := true, msgs := [Msg.warnBgsizeIgnored] } := rfl
  have hall : parseCommandLine testFS [("rv"), ("--bgsize"), v, ("img.png")] =
      { config := { inputPath := "img.png", maxcompsizebk := atofModel v, outputPath := "/data", outputFile := "/data/features.csv", segsuffix := "_seg", prosuffix := "_features" }, bgsize := true, msgs := [Msg.warnBgsizeIgnored] } := by
    show unlessEarly warningsPhase (unlessEarly drangesValidatePhase (unlessEarly drangesSortPhase
      (unlessEarly pixelconvPhase (unlessEarly fixupBrokenRoot (unlessEarly (finishInputOutput testFS)
        (parseLoop 3 [("--bgsize"), v, ("img.png")] initParseState)))))) = _
    rw [h1, h2w, finishInputOutput_eq, h2a, h2b, h2c, h3, h4, h5, h6, h7]
  rw [hall]
  exact ⟨rfl, rfl, rfl⟩


/-- Case --smooththreshold of the dependent-option warnings: supplied without its parent
feature, parsing warns, does not request help, and leaves the parent feature
disabled. -/
theorem c8aux_smooththreshold (v : String) :
    (parseCommandLine testFS [("rv"), ("--smooththreshold"), v, ("img.png")]).msgs = [Msg.warnSmooththresholdIgnored]
    ∧ (parseCommandLine testFS [("rv"), ("--smooththreshold"), v, ("img.png")]).config.showHelp = false
    ∧ (parseCommandLine testFS [("rv"), ("--smooththreshold"), v, ("img.png")]).config.enablesmooththresh = false := by
  have h1 : parseLoop 3 [("--smooththreshold"), v, ("img.png")] initParseState =
      { config := { inputPath := "img.png", smooththresh := atofModel v, segsuffix := "_seg", prosuffix := "_features" }, smooththreshold := true } := rfl
  have h2w : unlessEarly (finishInputOutput testFS)
      ({ config := { inputPath := "img.png", smooththresh := atofModel v, segsuffix := "_seg", prosuffix := "_features" }, smooththreshold := true }) =
      finishInputOutput testFS
      ({ config := { inputPath := "img.png", smooththresh := atofModel v, segsuffix := "_seg", prosuffix := "_features" }, smooththreshold := true }) :=
    unlessEarly_not_early _ _ rfl
  have h2a : inputPathPhase ({ config := { inputPath := "img.png", smooththresh := atofModel v, segsuffix := "_seg", prosuffix := "_features" }, smooththreshold := true }) =
      { config := { inputPath := "img.png", smooththresh := atofModel v, segsuffix := "_seg", prosuffix := "_features" }, smooththreshold := true } := rfl
  have h2b : unlessEarly (outputPathDefaultPhase testFS)
      ({ config := { inputPath := "img.png", smooththresh := atofModel v, segsuffix := "_seg", prosuffix := "_features" }, smooththreshold := true }) =
      { config := { inputPath := "img.png", smooththresh := atofModel v, outputPath := "/data", segsuffix := "_seg", prosuffix := "_features" }, smooththreshold := true } := rfl
  have h2c : unlessEarly (outputFilePhase testFS)
      ({ config := { inputPath := "img.png", smooththresh := atofModel v, outputPath := "/data", segsuffix := "_seg", prosuffix := "_features" }, smooththreshold := true }) =
      { config := { inputPath := "img.png", smooththresh := atofModel v, outputPath := "/data", outputFile := "/data/features.csv", segsuffix := "_seg", prosuffix := "_features" }, smooththreshold := true } := rfl
  have h3 : unlessEarly fixupBrokenRoot
      ({ config := { inputPath := "img.png", smooththresh := atofModel v, outputPath := "/data", outputFile := "/data/features.csv", segsuffix := "_seg", prosuffix := "_features" }, smooththreshold := true }) =
      { config := { inputPath := "img.png", smooththresh := atofModel v, outputPath := "/data", outputFile := "/data/features.csv", segsuffix := "_seg", prosuffix := "_features" }, smooththreshold := true } := rfl
  have h4 : unlessEarly pixelconvPhase
      ({ config := { inputPath := "img.png", smooththresh := atofModel v, outputPath := "/data", outputFile := "/data/features.csv", segsuffix := "_seg", prosuffix := "_features" }, smooththreshold := true }) =
      { config := { inputPath := "img.png", smooththresh := atofModel v, outputPath := "/data", outputFile := "/data/features.csv", segsuffix := "_seg", prosuffix := "_features" }, smooththreshold := true } := rfl
  have h5 : unlessEarly drangesSortPhase
      ({ config := { inputPath := "img.png", smooththresh := atofModel v, outputPath := "/data", outputFile := "/data/features.csv", segsuffix := "_seg", prosuffix := "_features" }, smooththreshold := true }) =
      { config := { inputPath := "img.png", smooththresh := atofModel v, outputPath := "/data", outputFile := "/data/features.csv", segsuffix := "_seg", prosuffix := "_features" }, smooththreshold := true } := rfl
  have h6 : unlessEarly drangesValidatePhase
      ({ config := { inputPath := "img.png", smooththresh := atofModel v, outputPath := "/data", outputFile := "/data/features.csv", segsuffix := "_seg", prosuffix := "_features" }, smooththreshold := true }) =
      { config := { inputPath := "img.png", smooththresh := atofModel v, outputPath := "/data", outputFile := "/data/features.csv", segsuffix := "_seg", prosuffix := "_features" }, smooththreshold := true } := rfl
  have h7 : unlessEarly warningsPhase
      ({ config := { inputPath := "img.png", smooththresh := atofModel v, outputPath := "/data", outputFile := "/data/features.csv", segsuffix := "_seg", prosuffix := "_features" }, smooththreshold := true }) =
      { config := { inputPath := "img.png", smooththresh := atofModel v, outputPath := "/data", outputFile := "/data/features.csv", segsuffix := "_seg", prosuffix := "_features" }, smooththreshold := true, msgs := [Msg.warnSmooththresholdIgnored] } := rfl
  have hall : parseCommandLine testFS [("rv"), ("--smooththreshold"), v, ("img.png")] =
      { config := { inputPath := "img.png", smooththresh := atofModel v, outputPath := "/data", outputFile := "/data/features.csv", segsuffix := "_seg", prosuffix := "_features" }, smooththreshold := true, msgs := [Msg.warnSmooththresholdIgnored] } := by
    show unlessEarly warningsPhase (unlessEarly drangesValidatePhase (unlessEarly drangesSortPhase
      (unlessEarly pixelconvPhase (unlessEarly fixupBrokenRoot (unlessEarly (finishInputOutput testFS)
        (parseLoop 3 [("--smooththreshold"), v, ("img.png")] initParseState)))))) = _
    rw [h1, h2w, finishInputOutput_eq, h2a, h2b, h2c, h3, h4, h5, h6, h7]
  rw [hall]
  exact ⟨rfl, rfl, rfl⟩


/-- Case --prunethreshold of the dependent-option warnings: supplied without its parent
feature, parsing warns, does not request help, and leaves the parent feature
disabled. -/
theorem c8aux_prunethreshold (v : String) :
    (parseCommandLine testFS [("rv"), ("--prunethreshold"), v, ("img.png")]).msgs = [Msg.warnPrunethresholdIgnored]
    ∧ (parseCommandLine testFS [("rv"), ("--prunethreshold"), v, ("img.png")]).config.showHelp = false
    ∧ (parseCommandLine testFS [("rv"), ("--prunethreshold"), v, ("img.png")]).config.enableRootPruning = false := by
  have h1 : parseLoop 3 [("--prunethreshold"), v, ("img.png")] initParseState =
      { config := { inputPath := "img.png", rootPruningThreshold := atoiModel v, segsuffix := "_seg", prosuffix := "_features" }, prunethresh := true } := rfl
  have h2w : unlessEarly (finishInputOutput testFS)
      ({ config := { inputPath := "img.png", rootPruningThreshold := atoiModel v, segsuffix := "_seg", prosuffix := "_features" }, prunethresh := true }) =
      finishInputOutput testFS
      ({ config := { inputPath := "img.png", rootPruningThreshold := atoiModel v, segsuffix := "_seg", prosuffix := "_features" }, prunethresh := true }) :=
    unlessEarly_not_early _ _ rfl
  have h2a : inputPathPhase ({ config := { inputPath := "img.png", rootPruningThreshold := atoiModel v, segsuffix := "_seg", prosuffix := "_features" }, prunethresh := true }) =
      { config := { inputPath := "img.png", rootPruningThreshold := atoiModel v, segsuffix := "_seg", prosuffix := "_features" }, prunethresh := true } := rfl
  have h2b : unlessEarly (outputPathDefaultPhase testFS)
      ({ config := { inputPath := "img.png", rootPruningThreshold := atoiModel v, segsuffix := "_seg", prosuffix := "_features" }, prunethresh := true }) =
      { config := { inputPath := "img.png", rootPruningThreshold := atoiModel v, outputPath := "/data", segsuffix := "_seg", prosuffix := "_features" }, prunethresh := true } := rfl
  have h2c : unlessEarly (outputFilePhase testFS)
      ({ config := { inputPath := "img.png", rootPruningThreshold := atoiModel v, outputPath := "/data", segsuffix := "_seg", prosuffix := "_features" }, prunethresh := true }) =
      { config := { inputPath := "img.png", rootPruningThreshold := atoiModel v, outputPath := "/data", outputFile := "/data/features.csv", segsuffix := "_seg", prosuffix := "_features" }, prunethresh := true } := rfl
  have h3 : unlessEarly fixupBrokenRoot
      ({ config := { inputPath := "img.png", rootPruningThreshold := atoiModel v, outputPath := "/data", outputFile := "/data/features.csv", segsuffix := "_seg", prosuffix := "_features" }, prunethresh := true }) =
      { config := { inputPath := "img.png", rootPruningThreshold := atoiModel v, outputPath := "/data", outputFile := "/data/features.csv", segsuffix := "_seg", prosuffix := "_features" }, prunethresh := true } := rfl
  have h4 : unlessEarly pixelconvPhase
      ({ config := { inputPath := "img.png", rootPruningThreshold := atoiModel v, outputPath := "/data", outputFile := "/data/features.csv", segsuffix := "_seg", prosuffix := "_features" }, prunethresh := true }) =
      { config := { inputPath := "img.png", rootPruningThreshold := atoiModel v, outputPath := "/data", outputFile := "/data/features.csv", segsuffix := "_seg", prosuffix := "_features" }, prunethresh := true } := rfl
  have h5 : unlessEarly drangesSortPhase
      ({ config := { inputPath := "img.png", rootPruningThreshold := atoiModel v, outputPath := "/data", outputFile := "/data/features.csv", segsuffix := "_seg", prosuffix := "_features" }, prunethresh := true }) =
      { config := { inputPath := "img.png", rootPruningThreshold := atoiModel v, outputPath := "/data", outputFile := "/data/features.csv", segsuffix := "_seg", prosuffix := "_features" }, prunethresh := true } := rfl
  have h6 : unlessEarly drangesValidatePhase
      ({ config := { inputPath := "img.png", rootPruningThreshold := atoiModel v, outputPath := "/data", outputFile := "/data/features.csv", segsuffix := "_seg", prosuffix := "_features" }, prunethresh := true }) =
      { config := { inputPath := "img.png", rootPruningThreshold := atoiModel v, outputPath := "/data", outputFile := "/data/features.csv", segsuffix := "_seg", prosuffix := "_features" }, prunethresh := true } := rfl
  have h7 : unlessEarly warningsPhase
      ({ config := { inputPath := "img.png", rootPruningThreshold := atoiModel v, outputPath := "/data", outputFile := "/data/features.csv", segsuffix := "_seg", prosuffix := "_features" }, prunethresh := true }) =
      { config := { inputPath := "img.png", rootPruningThreshold := atoiModel v, outputPath := "/data", outputFile := "/data/features.csv", segsuffix := "_seg", prosuffix := "_features" }, prunethresh := true, msgs := [Msg.warnPrunethresholdIgnored] } := rfl
  have hall : parseCommandLine testFS [("rv"), ("--prunethreshold"), v, ("img.png")] =
      { config := { inputPath := "img.png", rootPruningThreshold := atoiModel v, outputPath := "/data", outputFile := "/data/features.csv", segsuffix := "_seg", prosuffix := "_features" }, prunethresh := true, msgs := [Msg.warnPrunethresholdIgnored] } := by
    show unlessEarly warningsPhase (unlessEarly drangesValidatePhase (unlessEarly drangesSortPhase
      (unlessEarly pixelconvPhase (unlessEarly fixupBrokenRoot (unlessEarly (finishInputOutput testFS)
        (parseLoop 3 [("--prunethreshold"), v, ("img.png")] initParseState)))))) = _
    rw [h1, h2w, finishInputOutput_eq, h2a, h2b, h2c, h3, h4, h5, h6, h7]
  rw [hall]
  exact ⟨rfl, rfl, rfl⟩


/-- Case --ssuffix of the dependent-option warnings: supplied without its parent
feature, parsing warns, does not request help, and leaves the parent feature
disabled. -/
theorem c8aux_ssuffix (v : String) :
    (parseCommandLine testFS [("rv"), ("--ssuffix"), v, ("img.png")]).msgs = [Msg.warnSsuffixIgnored]
    ∧ (parseCommandLine testFS [("rv"), ("--ssuffix"), v, ("img.png")]).config.showHelp = false
    ∧ (parseCommandLine testFS [("rv"), ("--ssuffix"), v, ("img.png")]).config.savesegmented = false := by
  have h1 : parseLoop 3 [("--ssuffix"), v, ("img.png")] initParseState =
      { config := { inputPath := "img.png", segsuffix := v, prosuffix := "_features" }, ssuffix := true } := rfl
  have h2w : unlessEarly (finishInputOutput testFS)
      ({ config := { inputPath := "img.png", segsuffix := v, prosuffix := "_features" }, ssuffix := true }) =
      finishInputOutput testFS
      ({ config := { inputPath := "img.png", segsuffix := v, prosuffix := "_features" }, ssuffix := true }) :=
    unlessEarly_not_early _ _ rfl
  have h2a : inputPathPhase ({ config := { inputPath := "img.png", segsuffix := v, prosuffix := "_features" }, ssuffix := true }) =
      { config := { inputPath := "img.png", segsuffix := v, prosuffix := "_features" }, ssuffix := true } := rfl
  have h2b : unlessEarly (outputPathDefaultPhase testFS)
      ({ config := { inputPath := "img.png", segsuffix := v, prosuffix := "_features" }, ssuffix := true }) =
      { config := { inputPath := "img.png", outputPath := "/data", segsuffix := v, prosuffix := "_features" }, ssuffix := true } := rfl
  have h2c : unlessEarly (outputFilePhase testFS)
      ({ config := { inputPath := "img.png", outputPath := "/data", segsuffix := v, prosuffix := "_features" }, ssuffix := true }) =
      { config := { inputPath := "img.png", outputPath := "/data", outputFile := "/data/features.csv", segsuffix := v, prosuffix := "_features" }, ssuffix := true } := rfl
  have h3 : unlessEarly fixupBrokenRoot
      ({ config := { inputPath := "img.png", outputPath := "/data", outputFile := "/data/features.csv", segsuffix := v, prosuffix := "_features" }, ssuffix := true }) =
      { config := { inputPath := "img.png", outputPath := "/data", outputFile := "/data/features.csv", segsuffix := v, prosuffix := "_features" }, ssuffix := true } := rfl
  have h4 : unlessEarly pixelconvPhase
      ({ config := { inputPath := "img.png", outputPath := "/data", outputFile := "/data/features.csv", segsuffix := v, prosuffix := "_features" }, ssuffix := true }) =
      { config := { inputPath := "img.png", outputPath := "/data", outputFile := "/data/features.csv", segsuffix := v, prosuffix := "_features" }, ssuffix := true } := rfl
  have h5 : unlessEarly drangesSortPhase
      ({ config := { inputPath := "img.png", outputPath := "/data", outputFile := "/data/features.csv", segsuffix := v, prosuffix := "_features" }, ssuffix := true }) =
      { config := { inputPath := "img.png", outputPath := "/data", outputFile := "/data/features.csv", segsuffix := v, prosuffix := "_features" }, ssuffix := true } := rfl
  have h6 : unlessEarly drangesValidatePhase
      ({ config := { inputPath := "img.png", outputPath := "/data", outputFile := "/data/features.csv", segsuffix := v, prosuffix := "_features" }, ssuffix := true }) =
      { config := { inputPath := "img.png", outputPath := "/data", outputFile := "/data/features.csv", segsuffix := v, prosuffix := "_features" }, ssuffix := true } := rfl
  have h7 : unlessEarly warningsPhase
      ({ config := { inputPath := "img.png", outputPath := "/data", outputFile := "/data/features.csv", segsuffix := v, prosuffix := "_features" }, ssuffix := true }) =
      { config := { inputPath := "img.png", outputPath := "/data", outputFile := "/data/features.csv", segsuffix := v, prosuffix := "_features" }, ssuffix := true, msgs := [Msg.warnSsuffixIgnored] } := rfl
  have hall : parseCommandLine testFS [("rv"), ("--ssuffix"), v, ("img.png")] =
      { config := { inputPath := "img.png", outputPath := "/data", outputFile := "/data/features.csv", segsuffix := v, prosuffix := "_features" }, ssuffix := true, msgs := [Msg.warnSsuffixIgnored] } := by
    show unlessEarly warningsPhase (unlessEarly drangesValidatePhase (unlessEarly drangesSortPhase
      (unlessEarly pixelconvPhase (unlessEarly fixupBrokenRoot (unlessEarly (finishInputOutput testFS)
        (parseLoop 3 [("--ssuffix"), v, ("img.png")] initParseState)))))) = _
    rw [h1, h2w, finishInputOutput_eq, h2a, h2b, h2c, h3, h4, h5, h6, h7]
  rw [hall]
  exact ⟨rfl, rfl, rfl⟩


/-- Case --fsuffix of the dependent-option warnings: supplied without its parent
feature, parsing warns, does not request help, and leaves the parent feature
disabled. -/
theorem c8aux_fsuffix (v : String) :
    (parseCommandLine testFS [("rv"), ("--fsuffix"), v, ("img.png")]).msgs = [Msg.warnFsuffixIgnored]
    ∧ (parseCommandLine testFS [("rv"), ("--fsuffix"), v, ("img.png")]).config.showHelp = false
    ∧ (parseCommandLine testFS [("rv"), ("--fsuffix"), v, ("img.png")]).config.saveprocessed = false := by
  have h1 : parseLoop 3 [("--fsuffix"), v, ("img.png")] initParseState =
      { config := { inputPath := "img.png", segsuffix := "_seg", prosuffix := v }, fsuffix := true } := rfl
  have h2w : unlessEarly (finishInputOutput testFS)
      ({ config := { inputPath := "img.png", segsuffix := "_seg", prosuffix := v }, fsuffix := true }) =
      finishInputOutput testFS
      ({ config := { inputPath := "img.png", segsuffix := "_seg", prosuffix := v }, fsuffix := true }) :=
    unlessEarly_not_early _ _ rfl
  have h2a : inputPathPhase ({ config := { inputPath := "img.png", segsuffix := "_seg", prosuffix := v }, fsuffix := true }) =
      { config := { inputPath := "img.png", segsuffix := "_seg", prosuffix := v }, fsuffix := true } := rfl
  have h2b : unlessEarly (outputPathDefaultPhase testFS)
      ({ config := { inputPath := "img.png", segsuffix := "_seg", prosuffix := v }, fsuffix := true }) =
      { config := { inputPath := "img.png", outputPath := "/data", segsuffix := "_seg", prosuffix := v }, fsuffix := true } := rfl
  have h2c : unlessEarly (outputFilePhase testFS)
      ({ config := { inputPath := "img.png", outputPath := "/data", segsuffix := "_seg", prosuffix := v }, fsuffix := true }) =
      { config := { inputPath := "img.png", outputPath := "/data", outputFile := "/data/features.csv", segsuffix := "_seg", prosuffix := v }, fsuffix := true } := rfl
  have h3 : unlessEarly fixupBrokenRoot
      ({ config := { inputPath := "img.png", outputPath := "/data", outputFile := "/data/features.csv", segsuffix := "_seg", prosuffix := v }, fsuffix := true }) =
      { config := { inputPath := "img.png", outputPath := "/data", outputFile := "/data/features.csv", segsuffix := "_seg", prosuffix := v }, fsuffix := true } := rfl
  have h4 : unlessEarly pixelconvPhase
      ({ config := { inputPath := "img.png", outputPath := "/data", outputFile := "/data/features.csv", segsuffix := "_seg", prosuffix := v }, fsuffix := true }) =
      { config := { inputPath := "img.png", outputPath := "/data", outputFile := "/data/features.csv", segsuffix := "_seg", prosuffix := v }, fsuffix := true } := rfl
  have h5 : unlessEarly drangesSortPhase
      ({ config := { inputPath := "img.png", outputPath := "/data", outputFile := "/data/features.csv", segsuffix := "_seg", prosuffix := v }, fsuffix := true }) =
      { config := { inputPath := "img.png", outputPath := "/data", outputFile := "/data/features.csv", segsuffix := "_seg", prosuffix := v }, fsuffix := true } := rfl
  have h6 : unlessEarly drangesValidatePhase
      ({ config := { inputPath := "img.png", outputPath := "/data", outputFile := "/data/features.csv", segsuffix := "_seg", prosuffix := v }, fsuffix := true }) =
      { config := { inputPath := "img.png", outputPath := "/data", outputFile := "/data/features.csv", segsuffix := "_seg", prosuffix := v }, fsuffix := true } := rfl
  have h7 : unlessEarly warningsPhase
      ({ config := { inputPath := "img.png", outputPath := "/data", outputFile := "/data/features.csv", segsuffix := "_seg", prosuffix := v }, fsuffix := true }) =
      { config := { inputPath := "img.png", outputPath := "/data", outputFile := "/data/features.csv", segsuffix := "_seg", prosuffix := v }, fsuffix := true, msgs := [Msg.warnFsuffixIgnored] } := rfl
  have hall : parseCommandLine testFS [("rv"), ("--fsuffix"), v, ("img.png")] =
      { config := { inputPath := "img.png", outputPath := "/data", outputFile := "/data/features.csv", segsuffix := "_seg", prosuffix := v }, fsuffix := true, msgs := [Msg.warnFsuffixIgnored] } := by
    show unlessEarly warningsPhase (unlessEarly drangesValidatePhase (unlessEarly drangesSortPhase
      (unlessEarly pixelconvPhase (unlessEarly fixupBrokenRoot (unlessEarly (finishInputOutput testFS)
        (parseLoop 3 [("--fsuffix"), v, ("img.png")] initParseState)))))) = _
    rw [h1, h2w, finishInputOutput_eq, h2a, h2b, h2c, h3, h4, h5, h6, h7]
  rw [hall]
  exact ⟨rfl, rfl, rfl⟩


/-- Case --factordpi of the dependent-option warnings: supplied without its parent
feature, parsing warns, does not request help, and leaves the parent feature
disabled. -/
theorem c8aux_factordpi (v : String) :
    (parseCommandLine testFS [("rv"), ("--factordpi"), v, ("img.png")]).msgs = [Msg.warnFactorWithoutConvert]
    ∧ (parseCommandLine testFS [("rv"), ("--factordpi"), v, ("img.png")]).config.showHelp = false
    ∧ (parseCommandLine testFS [("rv"), ("--factordpi"), v, ("img.png")]).config.pixelconv = false
    ∧ (parseCommandLine testFS [("rv"), ("--factordpi"), v, ("img.png")]).config.conversion = 1
    ∧ (parseCommandLine testFS [("rv"), ("--factordpi"), v, ("img.png")]).config.pixelspermm = 0 := by
  have h1 : parseLoop 3 [("--factordpi"), v, ("img.png")] initParseState =
      { config := { inputPath := "img.png", segsuffix := "_seg", prosuffix := "_features" }, dpi := true, dpiFactor := atofModel v } := rfl
  have h2w : unlessEarly (finishInputOutput testFS)
      ({ config := { inputPath := "img.png", segsuffix := "_seg", prosuffix := "_features" }, dpi := true, dpiFactor := atofModel v }) =
      finishInputOutput testFS
      ({ config := { inputPath := "img.png", segsuffix := "_seg", prosuffix := "_features" }, dpi := true, dpiFactor := atofModel v }) :=
    unlessEarly_not_early _ _ rfl
  have h2a : inputPathPhase ({ config := { inputPath := "img.png", segsuffix := "_seg", prosuffix := "_features" }, dpi := true, dpiFactor := atofModel v }) =
      { config := { inputPath := "img.png", segsuffix := "_seg", prosuffix := "_features" }, dpi := true, dpiFactor := atofModel v } := rfl
  have h2b : unlessEarly (outputPathDefaultPhase testFS)
      ({ config := { inputPath := "img.png", segsuffix := "_seg", prosuffix := "_features" }, dpi := true, dpiFactor := atofModel v }) =
      { config := { inputPath := "img.png", outputPath := "/data", segsuffix := "_seg", prosuffix := "_features" }, dpi := true, dpiFactor := atofModel v } := rfl
  have h2c : unlessEarly (outputFilePhase testFS)
      ({ config := { inputPath := "img.png", outputPath := "/data", segsuffix := "_seg", prosuffix := "_features" }, dpi := true, dpiFactor := atofModel v }) =
      { config := { inputPath := "img.png", outputPath := "/data", outputFile := "/data/features.csv", segsuffix := "_seg", prosuffix := "_features" }, dpi := true, dpiFactor := atofModel v } := rfl
  have h3 : unlessEarly fixupBrokenRoot
      ({ config := { inputPath := "img.png", outputPath := "/data", outputFile := "/data/features.csv", segsuffix := "_seg", prosuffix := "_features" }, dpi := true, dpiFactor := atofModel v }) =
      { config := { inputPath := "img.png", outputPath := "/data", outputFile := "/data/features.csv", segsuffix := "_seg", prosuffix := "_features" }, dpi := true, dpiFactor := atofModel v } := rfl
  have h4 : unlessEarly pixelconvPhase
      ({ config := { inputPath := "img.png", outputPath := "/data", outputFile := "/data/features.csv", segsuffix := "_seg", prosuffix := "_features" }, dpi := true, dpiFactor := atofModel v }) =
      { config := { inputPath := "img.png", outputPath := "/data", outputFile := "/data/features.csv", segsuffix := "_seg", prosuffix := "_features" }, dpi := true, dpiFactor := atofModel v, msgs := [Msg.warnFactorWithoutConvert] } := rfl
  have h5 : unlessEarly drangesSortPhase
      ({ config := { inputPath := "img.png", outputPath := "/data", outputFile := "/data/features.csv", segsuffix := "_seg", prosuffix := "_features" }, dpi := true, dpiFactor := atofModel v, msgs := [Msg.warnFactorWithoutConvert] }) =
      { config := { inputPath := "img.png", outputPath := "/data", outputFile := "/data/features.csv", segsuffix := "_seg", prosuffix := "_features" }, dpi := true, dpiFactor := atofModel v, msgs := [Msg.warnFactorWithoutConvert] } := rfl
  have h6 : unlessEarly drangesValidatePhase
      ({ config := { inputPath := "img.png", outputPath := "/data", outputFile := "/data/features.csv", segsuffix := "_seg", prosuffix := "_features" }, dpi := true, dpiFactor := atofModel v, msgs := [Msg.warnFactorWithoutConvert] }) =
      { config := { inputPath := "img.png", outputPath := "/data", outputFile := "/data/features.csv", segsuffix := "_seg", prosuffix := "_features" }, dpi := true, dpiFactor := atofModel v, msgs := [Msg.warnFactorWithoutConvert] } := rfl
  have h7 : unlessEarly warningsPhase
      ({ config := { inputPath := "img.png", outputPath := "/data", outputFile := "/data/features.csv", segsuffix := "_seg", prosuffix := "_features" }, dpi := true, dpiFactor := atofModel v, msgs := [Msg.warnFactorWithoutConvert] }) =
      { config := { inputPath := "img.png", outputPath := "/data", outputFile := "/data/features.csv", segsuffix := "_seg", prosuffix := "_features" }, dpi := true, dpiFactor := atofModel v, msgs := [Msg.warnFactorWithoutConvert] } := rfl
  have hall : parseCommandLine testFS [("rv"), ("--factordpi"), v, ("img.png")] =
      { config := { inputPath := "img.png", outputPath := "/data", outputFile := "/data/features.csv", segsuffix := "_seg", prosuffix := "_features" }, dpi := true, dpiFactor := atofModel v, msgs := [Msg.warnFactorWithoutConvert] } := by
    show unlessEarly warningsPhase (unlessEarly drangesValidatePhase (unlessEarly drangesSortPhase
      (unlessEarly pixelconvPhase (unlessEarly fixupBrokenRoot (unlessEarly (finishInputOutput testFS)
        (parseLoop 3 [("--factordpi"), v, ("img.png")] initParseState)))))) = _
    rw [h1, h2w, finishInputOutput_eq, h2a, h2b, h2c, h3, h4, h5, h6, h7]
  rw [hall]
  exact ⟨rfl, rfl, rfl, rfl, rfl⟩


/-- Case --factorpixels of the dependent-option warnings: supplied without its parent
feature, parsing warns, does not request help, and leaves the parent feature
disabled. -/
theorem c8aux_factorpixels (v : String) :
    (parseCommandLine testFS [("rv"), ("--factorpixels"), v, ("img.png")]).msgs = [Msg.warnFactorWithoutConvert]
    ∧ (parseCommandLine testFS [("rv"), ("--factorpixels"), v, ("img.png")]).config.showHelp = false
    ∧ (parseCommandLine testFS [("rv"), ("--factorpixels"), v, ("img.png")]).config.pixelconv = false
    ∧ (parseCommandLine testFS [("rv"), ("--factorpixels"), v, ("img.png")]).config.conversion = 1
    ∧ (parseCommandLine testFS [("rv"), ("--factorpixels"), v, ("img.png")]).config.pixelspermm = 0 := by
  have h1 : parseLoop 3 [("--factorpixels"), v, ("img.png")] initParseState =
      { config := { inputPath := "img.png", segsuffix := "_seg", prosuffix := "_features" }, pixels := true, pixelFactor := atofModel v } := rfl
  have h2w : unlessEarly (finishInputOutput testFS)
      ({ config := { inputPath := "img.png", segsuffix := "_seg", prosuffix := "_features" }, pixels := true, pixelFactor := atofModel v }) =
      finishInputOutput testFS
      ({ config := { inputPath := "img.png", segsuffix := "_seg", prosuffix := "_features" }, pixels := true, pixelFactor := atofModel v }) :=
    unlessEarly_not_early _ _ rfl
  have h2a : inputPathPhase ({ config := { inputPath := "img.png", segsuffix := "_seg", prosuffix := "_features" }, pixels := true, pixelFactor := atofModel v }) =
      { config := { inputPath := "img.png", segsuffix := "_seg", prosuffix := "_features" }, pixels := true, pixelFactor := atofModel v } := rfl
  have h2b : unlessEarly (outputPathDefaultPhase testFS)
      ({ config := { inputPath := "img.png", segsuffix := "_seg", prosuffix := "_features" }, pixels := true, pixelFactor := atofModel v }) =
      { config := { inputPath := "img.png", outputPath := "/data", segsuffix := "_seg", prosuffix := "_features" }, pixels := true, pixelFactor := atofModel v } := rfl
  have h2c : unlessEarly (outputFilePhase testFS)
      ({ config := { inputPath := "img.png", outputPath := "/data", segsuffix := "_seg", prosuffix := "_features" }, pixels := true, pixelFactor := atofModel v }) =
      { config := { inputPath := "img.png", outputPath := "/data", outputFile := "/data/features.csv", segsuffix := "_seg", prosuffix := "_features" }, pixels := true, pixelFactor := atofModel v } := rfl
  have h3 : unlessEarly fixupBrokenRoot
      ({ config := { inputPath := "img.png", outputPath := "/data", outputFile := "/data/features.csv", segsuffix := "_seg", prosuffix := "_features" }, pixels := true, pixelFactor := atofModel v }) =
      { config := { inputPath := "img.png", outputPath := "/data", outputFile := "/data/features.csv", segsuffix := "_seg", prosuffix := "_features" }, pixels := true, pixelFactor := atofModel v } := rfl
  have h4 : unlessEarly pixelconvPhase
      ({ config := { inputPath := "img.png", outputPath := "/data", outputFile := "/data/features.csv", segsuffix := "_seg", prosuffix := "_features" }, pixels := true, pixelFactor := atofModel v }) =
      { config := { inputPath := "img.png", outputPath := "/data", outputFile := "/data/features.csv", segsuffix := "_seg", prosuffix := "_features" }, pixels := true, pixelFactor := atofModel v, msgs := [Msg.warnFactorWithoutConvert] } := rfl
  have h5 : unlessEarly drangesSortPhase
      ({ config := { inputPath := "img.png", outputPath := "/data", outputFile := "/data/features.csv", segsuffix := "_seg", prosuffix := "_features" }, pixels := true, pixelFactor := atofModel v, msgs := [Msg.warnFactorWithoutConvert] }) =
      { config := { inputPath := "img.png", outputPath := "/data", outputFile := "/data/features.csv", segsuffix := "_seg", prosuffix := "_features" }, pixels := true, pixelFactor := atofModel v, msgs := [Msg.warnFactorWithoutConvert] } := rfl
  have h6 : unlessEarly drangesValidatePhase
      ({ config := { inputPath := "img.png", outputPath := "/data", outputFile := "/data/features.csv", segsuffix := "_seg", prosuffix := "_features" }, pixels := true, pixelFactor := atofModel v, msgs := [Msg.warnFactorWithoutConvert] }) =
      { config := { inputPath := "img.png", outputPath := "/data", outputFile := "/data/features.csv", segsuffix := "_seg", prosuffix := "_features" }, pixels := true, pixelFactor := atofModel v, msgs := [Msg.warnFactorWithoutConvert] } := rfl
  have h7 : unlessEarly warningsPhase
      ({ config := { inputPath := "img.png", outputPath := "/data", outputFile := "/data/features.csv", segsuffix := "_seg", prosuffix := "_features" }, pixels := true, pixelFactor := atofModel v, msgs := [Msg.warnFactorWithoutConvert] }) =
      { config := { inputPath := "img.png", outputPath := "/data", outputFile := "/data/features.csv", segsuffix := "_seg", prosuffix := "_features" }, pixels := true, pixelFactor := atofModel v, msgs := [Msg.warnFactorWithoutConvert] } := rfl
  have hall : parseCommandLine testFS [("rv"), ("--factorpixels"), v, ("img.png")] =
      { config := { inputPath := "img.png", outputPath := "/data", outputFile := "/data/features.csv", segsuffix := "_seg", prosuffix := "_features" }, pixels := true, pixelFactor := atofModel v, msgs := [Msg.warnFactorWithoutConvert] } := by
    show unlessEarly warningsPhase (unlessEarly drangesValidatePhase (unlessEarly drangesSortPhase
      (unlessEarly pixelconvPhase (unlessEarly fixupBrokenRoot (unlessEarly (finishInputOutput testFS)
        (parseLoop 3 [("--factorpixels"), v, ("img.png")] initParseState)))))) = _
    rw [h1, h2w, finishInputOutput_eq, h2a, h2b, h2c, h3, h4, h5, h6, h7]
  rw [hall]
  exact ⟨rfl, rfl, rfl, rfl, rfl⟩


/-- The validating helper returns its input list unchanged on success. -/
theorem append_checked_ok_eq (v : ℚ) (out r : List ℚ)
    (h : append_checked_positive_ascending v out = Except.ok r) : r = out := by
  unfold append_checked_positive_ascending at h
  repeat' split at h <;> simp_all

/-- The CSV piece loop never changes the output list. -/
theorem csvLoop_out_eq (ps : List String) : ∀ (out : List ℚ) (b : Bool),
    (csvLoop ps out b).2.1 = out := by
  induction ps with
  | nil => intro out b; rfl
  | cons piece rest ih =>
    intro out b
    unfold csvLoop
    split
    · exact ih out b
    · split
      · rfl
      · split
        next out2 heq =>
          rw [ih out2 true, append_checked_ok_eq _ _ _ heq]
        next m heq => rfl

/-- consume_drange_token never changes the output list. -/
theorem consume_drange_token_out_eq (raw : String) (out : List ℚ) :
    (consume_drange_token raw out).2.1 = out := by
  unfold consume_drange_token
  split
  · rfl
  · split
    · rfl
    · split
      · exact csvLoop_out_eq _ out false
      · split
        · split
          next out2 heq => exact append_checked_ok_eq _ _ _ heq
          next m heq => rfl
        · rfl

/-- The --dranges token loop never appends anything: whatever list it starts
from is the list it returns. -/
theorem drangesScan_out_eq (l : List String) : ∀ out : List ℚ,
    (drangesScan l out).1 = out := by
  induction l with
  | nil => intro out; rfl
  | cons next rest ih =>
    intro out
    unfold drangesScan
    split
    · rfl
    · split
      next wasDrange out2 err heq =>
        have hout : out2 = out := by
          have := consume_drange_token_out_eq next out
          rw [heq] at this
          exact this
        split
        · rfl
        · split
          · simpa using hout
          · rw [ih out2, hout]

/-- C1: parsed --dranges values are validated but never stored.  In general
the scan loop returns its input list unchanged, so after `--dranges 3.0` the
configuration still has the cleared (empty) dranges list, no error is
reported, and the binned CSV series get a single column instead of two. -/
theorem c1_dranges_values_never_stored :
    (∀ (l : List String) (out : List ℚ), (drangesScan l out).1 = out)
    ∧ (parseCommandLine testFS [("rv"), ("--dranges"), ("3.0"), ("img.png")]).config.dranges = []
    ∧ (parseCommandLine testFS [("rv"), ("--dranges"), ("3.0"), ("img.png")]).config.showHelp = false
    ∧ (parseCommandLine testFS [("rv"), ("--dranges"), ("3.0"), ("img.png")]).msgs = []
    ∧ rangeCols ("Root.Length.Diameter.Range.") (".px")
        (parseCommandLine testFS [("rv"), ("--dranges"), ("3.0"), ("img.png")]).config.dranges.length =
        [("Root.Length.Diameter.Range.1.px")] :=
  ⟨fun l => drangesScan_out_eq l, rfl, rfl, rfl, rfl⟩

/-- C2: a descending --dranges list is not rejected.  On `--dranges 5,2` the
parser reports no error, does not request help, and the run goes on to load
and analyze images and exits successfully, because the values were never
appended to the list the post-parse ascending checks examine. -/
theorem c2_descending_dranges_not_rejected :
    (parseCommandLine testFS [("rv"), ("--dranges"), ("5,2"), ("img.png")]).config.showHelp = false
    ∧ (parseCommandLine testFS [("rv"), ("--dranges"), ("5,2"), ("img.png")]).msgs = []
    ∧ (parseCommandLine testFS [("rv"), ("--dranges"), ("5,2"), ("img.png")]).config.dranges = []
    ∧ (mainRun (parseCommandLine testFS [("rv"), ("--dranges"), ("5,2"), ("img.png")])
        [("img.png")] (fun _ => AnalyzeOutcome.ok []) false []).analyzed = [("img.png")]
    ∧ (mainRun (parseCommandLine testFS [("rv"), ("--dranges"), ("5,2"), ("img.png")])
        [("img.png")] (fun _ => AnalyzeOutcome.ok []) false []).exitCode = 0 :=
  ⟨rfl, rfl, rfl, rfl, rfl⟩

/-- C3 counterexample: a default broken-roots parse (roottype 1, no display
option requested) leaves showConvexHull, showHoles and showContours at their
defaults, namely true - they are not all false after parsing. -/
theorem c3_broken_root_defaults_keep_flags :
    (parseCommandLine testFS [("rv"), ("img.png")]).config.roottype = 1
    ∧ (parseCommandLine testFS [("rv"), ("img.png")]).config.showConvexHull = true
    ∧ (parseCommandLine testFS [("rv"), ("img.png")]).config.showHoles = true
    ∧ (parseCommandLine testFS [("rv"), ("img.png")]).config.showContours = true :=
  ⟨rfl, rfl, rfl, rfl⟩

/-- C5: each serialized numeric feature follows the spec encoding exactly:
NaN and infinities print as the literal NA, exact zero prints with 6
significant digits, every other value with ceil(log10(abs(v))) + 6
significant digits. -/
theorem c5_numeric_field_encoding (feature : DVal) :
    serializeFeature feature = specEncoding feature := by
  cases feature with
  | nan => rfl
  | pinf => rfl
  | ninf => rfl
  | fin q =>
    by_cases h : q = 0
    · subst h; rfl
    · unfold serializeFeature specEncoding dIsNan dIsInf dEqZero dVal
      simp [h]

/-- C6: the CSV header equals a fixed column template in which only the unit
suffix pack varies, and that pack is chosen solely by the pixelconv flag:
.px/.px2/.px3/.per.px when conversion is inactive, .mm/.mm2/.mm3/.per.mm when
it is active. -/
theorem c6_header_units_depend_only_on_conversion (config : feature_config) :
    writeCsvHeader config =
      headerTemplate config.roottype config.dranges.length
        (if config.pixelconv = true then mmUnits else pxUnits) := by
  unfold writeCsvHeader headerTemplate pxUnits mmUnits
  by_cases h : config.pixelconv = true <;>
    by_cases h2 : config.roottype = 0 <;> simp [h, h2]

/-- C9: when the output file exists and noappend is set, writeResultsToCsv
still opens in append mode: the new contents are the old contents followed by
a fresh header line and the new rows, so the pre-existing contents remain a
prefix of the file. -/
theorem c9_noappend_still_appends (config : feature_config) (old : List (List CsvCell))
    (imageFiles : List String) (allFeatures : List (List DVal)) (roiNames : List String)
    (h : config.noappend = true) :
    (writeResultsToCsv config true old imageFiles allFeatures roiNames).1 =
      old ++ ((writeCsvHeader config).map CsvCell.str ::
        csvRows imageFiles allFeatures roiNames) := by
  unfold writeResultsToCsv
  simp [h]

/-- Witness for C9 at a concrete call: one pre-existing line, one new row. -/
theorem c9_noappend_still_appends_witness :
    (writeResultsToCsv { noappend := true } true [[CsvCell.str ("prior")]] [("a.png")]
        [[DVal.fin 1]] [("Full")]).1 =
      [[CsvCell.str ("prior")]] ++
        ((writeCsvHeader { noappend := true }).map CsvCell.str ::
          csvRows [("a.png")] [[DVal.fin 1]] [("Full")]) :=
  c9_noappend_still_appends _ _ _ _ _ rfl

/-- No branch of the argument loop ever sets keepLargest to false: every
option either leaves the field alone or (-kl) sets it to true. -/
theorem parseStep_keepLargest (arg : String) (rest : List String) (st : ParseState)
    (h : st.config.keepLargest = true) :
    ((parseStep arg rest st).1).config.keepLargest = true := by
  unfold parseStep
  by_cases c1 : arg = "-h" ∨ arg = "--help"
  · rw [if_pos c1]; try exact h
  rw [if_neg c1]
  by_cases c2 : arg = "--version"
  · rw [if_pos c2]; try exact h
  rw [if_neg c2]
  by_cases c3 : arg = "--license"
  · rw [if_pos c3]; try exact h
  rw [if_neg c3]
  by_cases c4 : arg = "--credits"
  · rw [if_pos c4]; try exact h
  rw [if_neg c4]
  by_cases c5 : arg = "-na" ∨ arg = "--noappend"
  · rw [if_pos c5]; try exact h
  rw [if_neg c5]
  by_cases c6 : arg = "-op" ∨ arg = "--output_path"
  · rw [if_pos c6]
    cases rest with
    | nil => exact h
    | cons v rest2 => exact h
  rw [if_neg c6]
  by_cases c7 : arg = "-o" ∨ arg = "--output"
  · rw [if_pos c7]
    cases rest with
    | nil => exact h
    | cons v rest2 => exact h
  rw [if_neg c7]
  by_cases c8 : arg = "--metafile"
  · rw [if_pos c8]
    cases rest with
    | nil => exact h
    | cons v rest2 => exact h
  rw [if_neg c8]
  by_cases c9 : arg = "-r" ∨ arg = "--recursive"
  · rw [if_pos c9]; try exact h
  rw [if_neg c9]
  by_cases c10 : arg = "-v" ∨ arg = "--verbose"
  · rw [if_pos c10]; try exact h
  rw [if_neg c10]
  by_cases c11 : arg = "-rt" ∨ arg = "--roottype"
  · rw [if_pos c11]
    cases rest with
    | nil => exact h
    | cons v rest2 =>
      dsimp only
      by_cases hv : atoiModel v = 0 ∨ atoiModel v = 1
      · rw [if_pos hv]; exact h
      · rw [if_neg hv]; exact h
  rw [if_neg c11]
  by_cases c12 : arg = "-t" ∨ arg = "--threshold"
  · rw [if_pos c12]
    cases rest with
    | nil => exact h
    | cons v rest2 =>
      dsimp only
      by_cases hv : 0 ≤ atoiModel v ∧ atoiModel v ≤ 255
      · rw [if_pos hv]; exact h
      · rw [if_neg hv]; exact h
  rw [if_neg c12]
  by_cases c13 : arg = "-i" ∨ arg = "--invert"
  · rw [if_pos c13]; try exact h
  rw [if_neg c13]
  by_cases c14 : arg = "-kl" ∨ arg = "--keeplargest"
  · rw [if_pos c14]; try exact h
  rw [if_neg c14]
  by_cases c15 : arg = "--bgnoise"
  · rw [if_pos c15]; try exact h
  rw [if_neg c15]
  by_cases c16 : arg = "--fgnoise"
  · rw [if_pos c16]; try exact h
  rw [if_neg c16]
  by_cases c17 : arg = "--bgsize"
  · rw [if_pos c17]
    cases rest with
    | nil => exact h
    | cons v rest2 => exact h
  rw [if_neg c17]
  by_cases c18 : arg = "--fgsize"
  · rw [if_pos c18]
    cases rest with
    | nil => exact h
    | cons v rest2 => exact h
  rw [if_neg c18]
  by_cases c19 : arg = "-s" ∨ arg = "--smooth"
  · rw [if_pos c19]; try exact h
  rw [if_neg c19]
  by_cases c20 : arg = "-st" ∨ arg = "--smooththreshold"
  · rw [if_pos c20]
    cases rest with
    | nil => exact h
    | cons v rest2 => exact h
  rw [if_neg c20]
  by_cases c21 : arg = "--convert"
  · rw [if_pos c21]; try exact h
  rw [if_neg c21]
  by_cases c22 : arg = "--factordpi"
  · rw [if_pos c22]
    cases rest with
    | nil => exact h
    | cons v rest2 => exact h
  rw [if_neg c22]
  by_cases c23 : arg = "--factorpixels"
  · rw [if_pos c23]
    cases rest with
    | nil => exact h
    | cons v rest2 => exact h
  rw [if_neg c23]
  by_cases c24 : arg = "--prune"
  · rw [if_pos c24]; try exact h
  rw [if_neg c24]
  by_cases c25 : arg = "-pt" ∨ arg = "--prunethreshold"
  · rw [if_pos c25]
    cases rest with
    | nil => exact h
    | cons v rest2 => exact h
  rw [if_neg c25]
  by_cases c26 : arg = "--dranges"
  · rw [if_pos c26]
    rcases hscan : drangesScan rest [] with ⟨ds, em, rest2⟩
    cases em <;> exact h
  rw [if_neg c26]
  by_cases c27 : arg = "--segment"
  · rw [if_pos c27]; try exact h
  rw [if_neg c27]
  by_cases c28 : arg = "--feature"
  · rw [if_pos c28]; try exact h
  rw [if_neg c28]
  by_cases c29 : arg = "--ssuffix"
  · rw [if_pos c29]
    cases rest with
    | nil => exact h
    | cons v rest2 => exact h
  rw [if_neg c29]
  by_cases c30 : arg = "--fsuffix"
  · rw [if_pos c30]
    cases rest with
    | nil => exact h
    | cons v rest2 => exact h
  rw [if_neg c30]
  by_cases c31 : arg = "-ch" ∨ arg = "--convexhull"
  · rw [if_pos c31]; try exact h
  rw [if_neg c31]
  by_cases c32 : arg = "-ho" ∨ arg = "--holes"
  · rw [if_pos c32]; try exact h
  rw [if_neg c32]
  by_cases c33 : arg = "-dm" ∨ arg = "--distancemap"
  · rw [if_pos c33]; try exact h
  rw [if_neg c33]
  by_cases c34 : arg = "-ma" ∨ arg = "--medialaxis"
  · rw [if_pos c34]; try exact h
  rw [if_neg c34]
  by_cases c35 : arg = "-mw" ∨ arg = "--medialaxiswidth"
  · rw [if_pos c35]
    cases rest with
    | nil => exact h
    | cons v rest2 => exact h
  rw [if_neg c35]
  by_cases c36 : arg = "-to" ∨ arg = "--topology"
  · rw [if_pos c36]; try exact h
  rw [if_neg c36]
  by_cases c37 : arg = "-co" ∨ arg = "--contours"
  · rw [if_pos c37]; try exact h
  rw [if_neg c37]
  by_cases c38 : arg = "-cw" ∨ arg = "--contourwidth"
  · rw [if_pos c38]
    cases rest with
    | nil => exact h
    | cons v rest2 => exact h
  rw [if_neg c38]
  by_cases c39 : ¬(arg.toList.head? = some '-')
  · rw [if_pos c39]
    by_cases hv : st.config.inputPath = ""
    · rw [if_pos hv]; exact h
    · rw [if_neg hv]; exact h
  rw [if_neg c39]
  exact h

/-- The argument loop preserves keepLargest = true. -/
theorem parseLoop_keepLargest (fuel : Nat) : ∀ (args : List String) (st : ParseState),
    st.config.keepLargest = true → (parseLoop fuel args st).config.keepLargest = true := by
  induction fuel with
  | zero => intro args st h; cases args <;> simpa [parseLoop]
  | succ n ih =>
    intro args st h
    cases args with
    | nil => simpa [parseLoop]
    | cons arg rest =>
      simp only [parseLoop]
      have h2 := parseStep_keepLargest arg rest st h
      split
      · exact h2
      · exact ih _ _ h2

theorem inputPathPhase_keepLargest (st : ParseState) (h : st.config.keepLargest = true) :
    (inputPathPhase st).config.keepLargest = true := by
  unfold inputPathPhase
  repeat' split
  all_goals simp_all

theorem outputPathDefaultPhase_keepLargest (fsys : FileSystem) (st : ParseState)
    (h : st.config.keepLargest = true) :
    (outputPathDefaultPhase fsys st).config.keepLargest = true := by
  unfold outputPathDefaultPhase
  repeat' split
  all_goals simp_all

theorem outputFilePhase_keepLargest (fsys : FileSystem) (st : ParseState)
    (h : st.config.keepLargest = true) :
    (outputFilePhase fsys st).config.keepLargest = true := by
  unfold outputFilePhase
  repeat' split
  all_goals (try simp_all)
  all_goals (repeat' split)
  all_goals simp_all

theorem fixupBrokenRoot_keepLargest (st : ParseState) (h : st.config.keepLargest = true) :
    (fixupBrokenRoot st).config.keepLargest = true := by
  unfold fixupBrokenRoot
  repeat' split
  all_goals simp_all

theorem pixelconvPhase_keepLargest (st : ParseState) (h : st.config.keepLargest = true) :
    (pixelconvPhase st).config.keepLargest = true := by
  unfold pixelconvPhase
  repeat' split
  all_goals simp_all

theorem drangesSortPhase_keepLargest (st : ParseState) (h : st.config.keepLargest = true) :
    (drangesSortPhase st).config.keepLargest = true := by
  unfold drangesSortPhase
  repeat' split
  all_goals simp_all

theorem drangesValidatePhase_keepLargest (st : ParseState) (h : st.config.keepLargest = true) :
    (drangesValidatePhase st).config.keepLargest = true := by
  unfold drangesValidatePhase
  repeat' split
  all_goals simp_all

theorem warnFgsizeStep_config (st : ParseState) : (warnFgsizeStep st).config = st.config := by
  unfold warnFgsizeStep; split <;> rfl

theorem warnBgsizeStep_config (st : ParseState) : (warnBgsizeStep st).config = st.config := by
  unfold warnBgsizeStep; split <;> rfl

theorem warnSmooththresholdStep_config (st : ParseState) :
    (warnSmooththresholdStep st).config = st.config := by
  unfold warnSmooththresholdStep; split <;> rfl

theorem warnPrunethresholdStep_config (st : ParseState) :
    (warnPrunethresholdStep st).config = st.config := by
  unfold warnPrunethresholdStep; split <;> rfl

theorem warnSsuffixStep_config (st : ParseState) : (warnSsuffixStep st).config = st.config := by
  unfold warnSsuffixStep; split <;> rfl

theorem warnFsuffixStep_config (st : ParseState) : (warnFsuffixStep st).config = st.config := by
  unfold warnFsuffixStep; split <;> rfl

/-- The dependent-option warnings only append messages: the config record is
returned unchanged. -/
theorem warningsPhase_config (st : ParseState) : (warningsPhase st).config = st.config := by
  unfold warningsPhase
  rw [warnFsuffixStep_config, warnSsuffixStep_config, warnPrunethresholdStep_config,
      warnSmooththresholdStep_config, warnBgsizeStep_config, warnFgsizeStep_config]

theorem warningsPhase_keepLargest (st : ParseState) (h : st.config.keepLargest = true) :
    (warningsPhase st).config.keepLargest = true := by
  rw [warningsPhase_config]; exact h

theorem unlessEarly_keepLargest (f : ParseState → ParseState) (st : ParseState)
    (hf : ∀ s : ParseState, s.config.keepLargest = true → (f s).config.keepLargest = true)
    (h : st.config.keepLargest = true) :
    (unlessEarly f st).config.keepLargest = true := by
  unfold unlessEarly
  split
  · exact h
  · exact hf st h

/-- C10: every command line yields a configuration with keepLargest = true:
the field defaults to true and the only option touching it
(-kl / --keeplargest) can only set it to true, so the keep-only-largest
component filter is enabled on every CLI run, broken-roots mode included. -/
theorem c10_keepLargest_always_true (fsys : FileSystem) (argv : List String) :
    (parseCommandLine fsys argv).config.keepLargest = true := by
  unfold parseCommandLine parsePreFixup finishInputOutput
  apply unlessEarly_keepLargest _ _ warningsPhase_keepLargest
  apply unlessEarly_keepLargest _ _ drangesValidatePhase_keepLargest
  apply unlessEarly_keepLargest _ _ drangesSortPhase_keepLargest
  apply unlessEarly_keepLargest _ _ pixelconvPhase_keepLargest
  apply unlessEarly_keepLargest _ _ fixupBrokenRoot_keepLargest
  apply unlessEarly_keepLargest
  · intro s hs
    apply unlessEarly_keepLargest _ _ (outputFilePhase_keepLargest fsys)
    apply unlessEarly_keepLargest _ _ (outputPathDefaultPhase_keepLargest fsys)
    exact inputPathPhase_keepLargest s hs
  · exact parseLoop_keepLargest _ _ _ rfl


theorem fixupBrokenRoot_fires (st : ParseState) (hrt : st.config.roottype = 1)
    (hreq : st.convexhull = true ∨ st.holes = true ∨ st.contours = true) :
    fixupBrokenRoot st =
      { st with msgs := st.msgs ++ [Msg.warnBrokenRootOptionsIgnored],
                config := { st.config with
                              showConvexHull := false, showHoles := false,
                              showContours := false } } := by
  unfold fixupBrokenRoot
  rw [if_pos (⟨hrt, hreq⟩ : st.config.roottype = 1 ∧
    (st.convexhull = true ∨ st.holes = true ∨ st.contours = true))]

theorem pixelconvPhase_showflags (st : ParseState) :
    (pixelconvPhase st).config.showConvexHull = st.config.showConvexHull
    ∧ (pixelconvPhase st).config.showHoles = st.config.showHoles
    ∧ (pixelconvPhase st).config.showContours = st.config.showContours := by
  unfold pixelconvPhase
  repeat' split
  all_goals exact ⟨rfl, rfl, rfl⟩

theorem pixelconvPhase_msgs_mono (st : ParseState) (m : Msg) (h : m ∈ st.msgs) :
    m ∈ (pixelconvPhase st).msgs := by
  unfold pixelconvPhase
  repeat' split
  all_goals simp_all

theorem drangesSortPhase_showflags (st : ParseState) :
    (drangesSortPhase st).config.showConvexHull = st.config.showConvexHull
    ∧ (drangesSortPhase st).config.showHoles = st.config.showHoles
    ∧ (drangesSortPhase st).config.showContours = st.config.showContours := by
  unfold drangesSortPhase
  repeat' split
  all_goals exact ⟨rfl, rfl, rfl⟩

theorem drangesSortPhase_msgs_mono (st : ParseState) (m : Msg) (h : m ∈ st.msgs) :
    m ∈ (drangesSortPhase st).msgs := by
  unfold drangesSortPhase
  repeat' split
  all_goals simp_all

theorem drangesValidatePhase_showflags (st : ParseState) :
    (drangesValidatePhase st).config.showConvexHull = st.config.showConvexHull
    ∧ (drangesValidatePhase st).config.showHoles = st.config.showHoles
    ∧ (drangesValidatePhase st).config.showContours = st.config.showContours := by
  unfold drangesValidatePhase
  repeat' split
  all_goals exact ⟨rfl, rfl, rfl⟩

theorem drangesValidatePhase_msgs_mono (st : ParseState) (m : Msg) (h : m ∈ st.msgs) :
    m ∈ (drangesValidatePhase st).msgs := by
  unfold drangesValidatePhase
  repeat' split
  all_goals simp_all

theorem warnFgsizeStep_msgs_mono (st : ParseState) (m : Msg) (h : m ∈ st.msgs) :
    m ∈ (warnFgsizeStep st).msgs := by
  unfold warnFgsizeStep; split <;> simp_all

theorem warnBgsizeStep_msgs_mono (st : ParseState) (m : Msg) (h : m ∈ st.msgs) :
    m ∈ (warnBgsizeStep st).msgs := by
  unfold warnBgsizeStep; split <;> simp_all

theorem warnSmooththresholdStep_msgs_mono (st : ParseState) (m : Msg) (h : m ∈ st.msgs) :
    m ∈ (warnSmooththresholdStep st).msgs := by
  unfold warnSmooththresholdStep; split <;> simp_all

theorem warnPrunethresholdStep_msgs_mono (st : ParseState) (m : Msg) (h : m ∈ st.msgs) :
    m ∈ (warnPrunethresholdStep st).msgs := by
  unfold warnPrunethresholdStep; split <;> simp_all

theorem warnSsuffixStep_msgs_mono (st : ParseState) (m : Msg) (h : m ∈ st.msgs) :
    m ∈ (warnSsuffixStep st).msgs := by
  unfold warnSsuffixStep; split <;> simp_all

theorem warnFsuffixStep_msgs_mono (st : ParseState) (m : Msg) (h : m ∈ st.msgs) :
    m ∈ (warnFsuffixStep st).msgs := by
  unfold warnFsuffixStep; split <;> simp_all

theorem warningsPhase_msgs_mono (st : ParseState) (m : Msg) (h : m ∈ st.msgs) :
    m ∈ (warningsPhase st).msgs := by
  unfold warningsPhase
  exact warnFsuffixStep_msgs_mono _ _ (warnSsuffixStep_msgs_mono _ _
    (warnPrunethresholdStep_msgs_mono _ _ (warnSmooththresholdStep_msgs_mono _ _
      (warnBgsizeStep_msgs_mono _ _ (warnFgsizeStep_msgs_mono _ _ h)))))

theorem unlessEarly_showflags (f : ParseState → ParseState) (st : ParseState)
    (hf : ∀ s : ParseState, (f s).config.showConvexHull = s.config.showConvexHull
      ∧ (f s).config.showHoles = s.config.showHoles
      ∧ (f s).config.showContours = s.config.showContours) :
    (unlessEarly f st).config.showConvexHull = st.config.showConvexHull
    ∧ (unlessEarly f st).config.showHoles = st.config.showHoles
    ∧ (unlessEarly f st).config.showContours = st.config.showContours := by
  unfold unlessEarly
  split
  · exact ⟨rfl, rfl, rfl⟩
  · exact hf st

theorem unlessEarly_msgs_mono (f : ParseState → ParseState) (st : ParseState)
    (hf : ∀ (s : ParseState) (m : Msg), m ∈ s.msgs → m ∈ (f s).msgs) (m : Msg)
    (h : m ∈ st.msgs) : m ∈ (unlessEarly f st).msgs := by
  unfold unlessEarly
  split
  · exact h
  · exact hf st m h

theorem warningsPhase_showflags (st : ParseState) :
    (warningsPhase st).config.showConvexHull = st.config.showConvexHull
    ∧ (warningsPhase st).config.showHoles = st.config.showHoles
    ∧ (warningsPhase st).config.showContours = st.config.showContours := by
  rw [warningsPhase_config]
  exact ⟨rfl, rfl, rfl⟩

/-- The phases after the broken-root fix-up neither change the three display
flags nor drop messages. -/
theorem postFixup_preserves (st : ParseState) :
    ((unlessEarly warningsPhase (unlessEarly drangesValidatePhase (unlessEarly drangesSortPhase
        (unlessEarly pixelconvPhase st)))).config.showConvexHull = st.config.showConvexHull)
    ∧ ((unlessEarly warningsPhase (unlessEarly drangesValidatePhase (unlessEarly drangesSortPhase
        (unlessEarly pixelconvPhase st)))).config.showHoles = st.config.showHoles)
    ∧ ((unlessEarly warningsPhase (unlessEarly drangesValidatePhase (unlessEarly drangesSortPhase
        (unlessEarly pixelconvPhase st)))).config.showContours = st.config.showContours)
    ∧ (∀ m ∈ st.msgs,
        m ∈ (unlessEarly warningsPhase (unlessEarly drangesValidatePhase (unlessEarly drangesSortPhase
          (unlessEarly pixelconvPhase st)))).msgs) := by
  have s1 := unlessEarly_showflags pixelconvPhase st pixelconvPhase_showflags
  have s2 := unlessEarly_showflags drangesSortPhase (unlessEarly pixelconvPhase st)
    drangesSortPhase_showflags
  have s3 := unlessEarly_showflags drangesValidatePhase
    (unlessEarly drangesSortPhase (unlessEarly pixelconvPhase st)) drangesValidatePhase_showflags
  have s4 := unlessEarly_showflags warningsPhase
    (unlessEarly drangesValidatePhase (unlessEarly drangesSortPhase
      (unlessEarly pixelconvPhase st))) warningsPhase_showflags
  refine ⟨?_, ?_, ?_, ?_⟩
  · rw [s4.1, s3.1, s2.1, s1.1]
  · rw [s4.2.1, s3.2.1, s2.2.1, s1.2.1]
  · rw [s4.2.2, s3.2.2, s2.2.2, s1.2.2]
  · intro m hm
    apply unlessEarly_msgs_mono _ _ warningsPhase_msgs_mono
    apply unlessEarly_msgs_mono _ _ drangesValidatePhase_msgs_mono
    apply unlessEarly_msgs_mono _ _ drangesSortPhase_msgs_mono
    apply unlessEarly_msgs_mono _ _ pixelconvPhase_msgs_mono
    exact hm

/-- C3 (amended): when parsing reaches the post-parse fix-up (no earlier
configuration-error return), roottype is broken (1) and at least one of
convex hull, holes or contours was requested, all three display flags are
false in the final configuration and the warning is emitted. -/
theorem c3_broken_root_requested_flags_off (fsys : FileSystem) (argv : List String)
    (he : (parsePreFixup fsys argv).earlyReturn = false)
    (hrt : (parsePreFixup fsys argv).config.roottype = 1)
    (hreq : (parsePreFixup fsys argv).convexhull = true ∨
      (parsePreFixup fsys argv).holes = true ∨ (parsePreFixup fsys argv).contours = true) :
    (parseCommandLine fsys argv).config.showConvexHull = false
    ∧ (parseCommandLine fsys argv).config.showHoles = false
    ∧ (parseCommandLine fsys argv).config.showContours = false
    ∧ Msg.warnBrokenRootOptionsIgnored ∈ (parseCommandLine fsys argv).msgs := by
  have hfix : unlessEarly fixupBrokenRoot (parsePreFixup fsys argv) =
      { parsePreFixup fsys argv with
        msgs := (parsePreFixup fsys argv).msgs ++ [Msg.warnBrokenRootOptionsIgnored],
        config := { (parsePreFixup fsys argv).config with
                      showConvexHull := false, showHoles := false, showContours := false } } := by
    rw [unlessEarly_not_early _ _ he, fixupBrokenRoot_fires _ hrt hreq]
  show (unlessEarly warningsPhase (unlessEarly drangesValidatePhase (unlessEarly drangesSortPhase
      (unlessEarly pixelconvPhase (unlessEarly fixupBrokenRoot
        (parsePreFixup fsys argv)))))).config.showConvexHull = false
    ∧ (unlessEarly warningsPhase (unlessEarly drangesValidatePhase (unlessEarly drangesSortPhase
      (unlessEarly pixelconvPhase (unlessEarly fixupBrokenRoot
        (parsePreFixup fsys argv)))))).config.showHoles = false
    ∧ (unlessEarly warningsPhase (unlessEarly drangesValidatePhase (unlessEarly drangesSortPhase
      (unlessEarly pixelconvPhase (unlessEarly fixupBrokenRoot
        (parsePreFixup fsys argv)))))).config.showContours = false
    ∧ Msg.warnBrokenRootOptionsIgnored ∈ (unlessEarly warningsPhase (unlessEarly drangesValidatePhase
      (unlessEarly drangesSortPhase (unlessEarly pixelconvPhase (unlessEarly fixupBrokenRoot
        (parsePreFixup fsys argv)))))).msgs
  rw [hfix]
  have hp := postFixup_preserves ({ parsePreFixup fsys argv with
    msgs := (parsePreFixup fsys argv).msgs ++ [Msg.warnBrokenRootOptionsIgnored],
    config := { (parsePreFixup fsys argv).config with
                  showConvexHull := false, showHoles := false, showContours := false } })
  refine ⟨?_, ?_, ?_, ?_⟩
  · rw [hp.1]
  · rw [hp.2.1]
  · rw [hp.2.2.1]
  · exact hp.2.2.2 _ (by simp)

/-- Witness for the amended C3 at a concrete run: default roottype 1 with
-ch requested. -/
theorem c3_broken_root_requested_flags_off_witness :
    (parseCommandLine testFS [("rv"), ("-ch"), ("img.png")]).config.showConvexHull = false
    ∧ (parseCommandLine testFS [("rv"), ("-ch"), ("img.png")]).config.showHoles = false
    ∧ (parseCommandLine testFS [("rv"), ("-ch"), ("img.png")]).config.showContours = false
    ∧ Msg.warnBrokenRootOptionsIgnored ∈
        (parseCommandLine testFS [("rv"), ("-ch"), ("img.png")]).msgs :=
  c3_broken_root_requested_flags_off testFS [("rv"), ("-ch"), ("img.png")] rfl rfl (Or.inl rfl)


/-- In console mode every processed image is recorded with ROI name "Full". -/
theorem batchLoop_roinames (analyze : String → AnalyzeOutcome) (files : List String) :
    (batchLoop analyze files).2.2.1 = (batchLoop analyze files).2.1.map (fun _ => "Full") := by
  induction files with
  | nil => rfl
  | cons f fs ih =>
    simp only [batchLoop]
    rcases hb : batchLoop analyze fs with ⟨af, pf, rn, ms⟩
    rw [hb] at ih
    cases ha : analyze f <;> simp_all

/-- Every row built from a "Full" ROI list starts with the image file name
and the cell "Full". -/
theorem csvRows_mem_full (files : List String) : ∀ (feats : List (List DVal)) (row : List CsvCell),
    row ∈ csvRows files feats (files.map (fun _ => "Full")) →
    ∃ f fe, row = CsvCell.str (path_filename f) :: CsvCell.str ("Full") :: fe := by
  induction files with
  | nil => intro feats row hmem; simp [csvRows] at hmem
  | cons f fs ih =>
    intro feats row hmem
    cases feats with
    | nil => simp [csvRows] at hmem
    | cons fe fes =>
      simp only [List.map, csvRows, csvRow, List.mem_cons] at hmem
      rcases hmem with h | h
      · exact ⟨f, fe.map serializeFeature, h⟩
      · exact ih fes row h

/-- C7: the header's first two columns are File.Name and Region.of.Interest
for every configuration, and with no ROI set active (the console build) every
data row produced by the batch loop starts with the image file name and the
literal ROI cell "Full". -/
theorem c7_first_two_columns (config : feature_config) (analyze : String → AnalyzeOutcome)
    (files : List String) :
    (writeCsvHeader config).take 2 = [("File.Name"), ("Region.of.Interest")]
    ∧ (∀ row ∈ csvRows (batchLoop analyze files).2.1 (batchLoop analyze files).1
          (batchLoop analyze files).2.2.1,
        ∃ f fe, row = CsvCell.str (path_filename f) :: CsvCell.str ("Full") :: fe) := by
  constructor
  · unfold writeCsvHeader
    by_cases h : config.roottype = 0 <;> simp [h]
  · intro row hrow
    rw [batchLoop_roinames] at hrow
    exact csvRows_mem_full (batchLoop analyze files).2.1 (batchLoop analyze files).1 row hrow

/-- Witness for C7: a one-image batch produces the row [a.png, Full]. -/
theorem c7_first_two_columns_witness :
    ∃ f fe, [CsvCell.str ("a.png"), CsvCell.str ("Full")] =
      CsvCell.str (path_filename f) :: CsvCell.str ("Full") :: fe :=
  (c7_first_two_columns {} (fun _ => AnalyzeOutcome.ok []) [("a.png")]).2
    [CsvCell.str ("a.png"), CsvCell.str ("Full")] (by decide)


/-- The processed-files list is exactly the successful images, in order:
a failure never stops the loop from processing the rest. -/
theorem batchLoop_processed_filter (analyze : String → AnalyzeOutcome) (files : List String) :
    (batchLoop analyze files).2.1 = files.filter (fun f => analyzeOk (analyze f)) := by
  induction files with
  | nil => rfl
  | cons f fs ih =>
    simp only [batchLoop, List.filter]
    rcases hb : batchLoop analyze fs with ⟨af, pf, rn, ms⟩
    rw [hb] at ih
    cases ha : analyze f <;> simp_all [analyzeOk]

/-- Every failure message (which carries the failing image's path) ends up in
the batch message stream. -/
theorem batchLoop_failure_msgs (analyze : String → AnalyzeOutcome) (files : List String) :
    ∀ f ∈ files, ∀ m ∈ analyzeMsgs f (analyze f), m ∈ (batchLoop analyze files).2.2.2 := by
  induction files with
  | nil => intro f hf; simp at hf
  | cons g fs ih =>
    intro f hf m hm
    simp only [batchLoop]
    rcases hb : batchLoop analyze fs with ⟨af, pf, rn, ms⟩
    rcases List.mem_cons.mp hf with hfg | hfs
    · subst hfg
      cases ha : analyze f
      · rw [ha] at hm; simp [analyzeMsgs] at hm
      · rw [ha] at hm; simp_all [analyzeMsgs]
      · rw [ha] at hm; simp_all [analyzeMsgs]
    · have := ih f hfs m hm
      rw [hb] at this
      cases ha : analyze g <;> simp_all

/-- C4: in a batch, per-image failures are isolated.  The guards showHelp /
showVersion / showLicense / showCredits being off and a non-empty image list
put the run into the processing loop; then (a) every image is analyzed,
(b) the processed list is exactly the successful images (failures do not
abort the rest), (c) each failure's message, carrying that image's path, is
in the emitted message stream, (d) the exit status is zero exactly when at
least one image succeeded, and (e) when any image succeeded the results of
the successful ones are written to the CSV. -/
theorem c4_batch_error_isolation (pr : ParseState) (files : List String)
    (analyze : String → AnalyzeOutcome) (csvExists : Bool) (old : List (List CsvCell))
    (hh : pr.config.showHelp = false) (hv : pr.config.showVersion = false)
    (hl : pr.config.showLicense = false) (hc : pr.config.showCredits = false)
    (hne : ¬(files = [])) :
    (mainRun pr files analyze csvExists old).analyzed = files
    ∧ (batchLoop analyze files).2.1 = files.filter (fun f => analyzeOk (analyze f))
    ∧ (∀ f ∈ files, ∀ m ∈ analyzeMsgs f (analyze f),
        m ∈ (mainRun pr files analyze csvExists old).msgs)
    ∧ ((mainRun pr files analyze csvExists old).exitCode = 0 ↔
        ¬(files.filter (fun f => analyzeOk (analyze f)) = []))
    ∧ (¬(files.filter (fun f => analyzeOk (analyze f)) = []) →
        (mainRun pr files analyze csvExists old).fileLines =
          (writeResultsToCsv pr.config csvExists old (batchLoop analyze files).2.1
            (batchLoop analyze files).1 (batchLoop analyze files).2.2.1).1) := by
  have hfilter := batchLoop_processed_filter analyze files
  have hmsgs := batchLoop_failure_msgs analyze files
  unfold mainRun
  simp only [hh, hv, hl, hc]
  rcases hb : batchLoop analyze files with ⟨af, pf, rn, ms⟩
  rw [hb] at hfilter hmsgs
  rcases hw : writeResultsToCsv pr.config csvExists old pf af rn with ⟨outLines, wms⟩
  by_cases hpf : pf = []
  · subst hpf
    simp only [hb, hw, hne, ← hfilter]
    refine ⟨by simp, by simp, ?_, by simp, by simp⟩
    intro f hf m hm
    have := hmsgs f hf m hm
    simp_all
  · simp only [hb, hw, hne, ← hfilter, hpf]
    refine ⟨by simp [hpf], by trivial, ?_, by simp [hpf], by simp [hpf]⟩
    intro f hf m hm
    have := hmsgs f hf m hm
    simp_all [hpf]

/-- Witness for C4: a two-image batch in which the first image fails to load
and the second succeeds exits with code 0 and the failure was reported. -/
theorem c4_batch_error_isolation_witness :
    (mainRun initParseState [("a.png"), ("b.png")]
        (fun s => if s = "a.png" then AnalyzeOutcome.loadFail else AnalyzeOutcome.ok [])
        false []).exitCode = 0 ↔
      ¬([("a.png"), ("b.png")].filter
          (fun f => analyzeOk ((fun s => if s = "a.png" then AnalyzeOutcome.loadFail
            else AnalyzeOutcome.ok []) f)) = []) :=
  (c4_batch_error_isolation initParseState [("a.png"), ("b.png")]
    (fun s => if s = "a.png" then AnalyzeOutcome.loadFail else AnalyzeOutcome.ok [])
    false [] rfl rfl rfl rfl (by decide)).2.2.2.1


theorem unlessEarly_early_back (f : ParseState → ParseState) (st : ParseState)
    (h : (unlessEarly f st).earlyReturn = false) :
    st.earlyReturn = false ∧ unlessEarly f st = f st := by
  by_cases hs : st.earlyReturn = true
  · exfalso
    unfold unlessEarly at h
    rw [if_pos hs] at h
    rw [hs] at h
    exact absurd h (by decide)
  · have hs2 : st.earlyReturn = false := by
      cases hb : st.earlyReturn
      · rfl
      · exact absurd hb hs
    exact ⟨hs2, unlessEarly_not_early f st hs2⟩

/-- When the sortedness check does not fire (no early return in its result),
it leaves the state unchanged. -/
theorem drangesSortPhase_skip (st : ParseState)
    (h : (drangesSortPhase st).earlyReturn = false) : drangesSortPhase st = st := by
  unfold drangesSortPhase at h ⊢
  by_cases c : 0 < st.config.dranges.length ∧ ¬(isSortedLe st.config.dranges = true)
  · rw [if_pos c] at h
    simp at h
  · rw [if_neg c]

/-- When the element-wise dranges validation does not fire, it leaves the
state unchanged. -/
theorem drangesValidatePhase_skip (st : ParseState)
    (h : (drangesValidatePhase st).earlyReturn = false) : drangesValidatePhase st = st := by
  unfold drangesValidatePhase at h ⊢
  cases hv : validateDrangesAux none st.config.dranges with
  | some m =>
    rw [hv] at h
    simp at h
  | none =>
    rfl

/-- The broken-root fix-up touches only the three display flags and the
message list: the parser-local flags and the other config fields survive. -/
theorem fixupBrokenRoot_fields (st : ParseState) :
    (fixupBrokenRoot st).fgsize = st.fgsize ∧ (fixupBrokenRoot st).bgsize = st.bgsize
    ∧ (fixupBrokenRoot st).smooththreshold = st.smooththreshold
    ∧ (fixupBrokenRoot st).prunethresh = st.prunethresh
    ∧ (fixupBrokenRoot st).ssuffix = st.ssuffix
    ∧ (fixupBrokenRoot st).fsuffix = st.fsuffix
    ∧ (fixupBrokenRoot st).dpi = st.dpi
    ∧ (fixupBrokenRoot st).pixels = st.pixels
    ∧ (fixupBrokenRoot st).config.filterfgnoise = st.config.filterfgnoise
    ∧ (fixupBrokenRoot st).config.filterbknoise = st.config.filterbknoise
    ∧ (fixupBrokenRoot st).config.enablesmooththresh = st.config.enablesmooththresh
    ∧ (fixupBrokenRoot st).config.enableRootPruning = st.config.enableRootPruning
    ∧ (fixupBrokenRoot st).config.savesegmented = st.config.savesegmented
    ∧ (fixupBrokenRoot st).config.saveprocessed = st.config.saveprocessed
    ∧ (fixupBrokenRoot st).config.pixelconv = st.config.pixelconv
    ∧ (fixupBrokenRoot st).config.showHelp = st.config.showHelp := by
  unfold fixupBrokenRoot
  split
  all_goals exact ⟨rfl, rfl, rfl, rfl, rfl, rfl, rfl, rfl, rfl, rfl, rfl, rfl, rfl, rfl, rfl, rfl⟩

/-- The conversion-factor resolution touches only conversion, pixelspermm and
the message list: the parser-local flags and the other config fields
survive. -/
theorem pixelconvPhase_fields (st : ParseState) :
    (pixelconvPhase st).fgsize = st.fgsize ∧ (pixelconvPhase st).bgsize = st.bgsize
    ∧ (pixelconvPhase st).smooththreshold = st.smooththreshold
    ∧ (pixelconvPhase st).prunethresh = st.prunethresh
    ∧ (pixelconvPhase st).ssuffix = st.ssuffix
    ∧ (pixelconvPhase st).fsuffix = st.fsuffix
    ∧ (pixelconvPhase st).config.filterfgnoise = st.config.filterfgnoise
    ∧ (pixelconvPhase st).config.filterbknoise = st.config.filterbknoise
    ∧ (pixelconvPhase st).config.enablesmooththresh = st.config.enablesmooththresh
    ∧ (pixelconvPhase st).config.enableRootPruning = st.config.enableRootPruning
    ∧ (pixelconvPhase st).config.savesegmented = st.config.savesegmented
    ∧ (pixelconvPhase st).config.saveprocessed = st.config.saveprocessed
    ∧ (pixelconvPhase st).config.showHelp = st.config.showHelp := by
  unfold pixelconvPhase
  repeat' split
  all_goals exact ⟨rfl, rfl, rfl, rfl, rfl, rfl, rfl, rfl, rfl, rfl, rfl, rfl, rfl⟩

/-- Lines 676-682 of mv.cpp: a conversion factor given while --convert is off
warns and resets the factor to 1. -/
theorem pixelconvPhase_noconvert (st : ParseState) (hpc : st.config.pixelconv = false)
    (hdp : st.dpi = true ∨ st.pixels = true) :
    pixelconvPhase st =
      { st with msgs := st.msgs ++ [Msg.warnFactorWithoutConvert],
                config := { st.config with conversion := 1, pixelspermm := 0 } } := by
  unfold pixelconvPhase
  rw [if_neg (by simp [hpc]), if_pos hdp]

theorem warnFgsizeStep_flags (st : ParseState) :
    (warnFgsizeStep st).fgsize = st.fgsize ∧ (warnFgsizeStep st).bgsize = st.bgsize
    ∧ (warnFgsizeStep st).smooththreshold = st.smooththreshold
    ∧ (warnFgsizeStep st).prunethresh = st.prunethresh
    ∧ (warnFgsizeStep st).ssuffix = st.ssuffix
    ∧ (warnFgsizeStep st).fsuffix = st.fsuffix := by
  unfold warnFgsizeStep
  split
  all_goals exact ⟨rfl, rfl, rfl, rfl, rfl, rfl⟩

theorem warnBgsizeStep_flags (st : ParseState) :
    (warnBgsizeStep st).fgsize = st.fgsize ∧ (warnBgsizeStep st).bgsize = st.bgsize
    ∧ (warnBgsizeStep st).smooththreshold = st.smooththreshold
    ∧ (warnBgsizeStep st).prunethresh = st.prunethresh
    ∧ (warnBgsizeStep st).ssuffix = st.ssuffix
    ∧ (warnBgsizeStep st).fsuffix = st.fsuffix := by
  unfold warnBgsizeStep
  split
  all_goals exact ⟨rfl, rfl, rfl, rfl, rfl, rfl⟩

theorem warnSmooththresholdStep_flags (st : ParseState) :
    (warnSmooththresholdStep st).fgsize = st.fgsize
    ∧ (warnSmooththresholdStep st).bgsize = st.bgsize
    ∧ (warnSmooththresholdStep st).smooththreshold = st.smooththreshold
    ∧ (warnSmooththresholdStep st).prunethresh = st.prunethresh
    ∧ (warnSmooththresholdStep st).ssuffix = st.ssuffix
    ∧ (warnSmooththresholdStep st).fsuffix = st.fsuffix := by
  unfold warnSmooththresholdStep
  split
  all_goals exact ⟨rfl, rfl, rfl, rfl, rfl, rfl⟩

theorem warnPrunethresholdStep_flags (st : ParseState) :
    (warnPrunethresholdStep st).fgsize = st.fgsize
    ∧ (warnPrunethresholdStep st).bgsize = st.bgsize
    ∧ (warnPrunethresholdStep st).smooththreshold = st.smooththreshold
    ∧ (warnPrunethresholdStep st).prunethresh = st.prunethresh
    ∧ (warnPrunethresholdStep st).ssuffix = st.ssuffix
    ∧ (warnPrunethresholdStep st).fsuffix = st.fsuffix := by
  unfold warnPrunethresholdStep
  split
  all_goals exact ⟨rfl, rfl, rfl, rfl, rfl, rfl⟩

theorem warnSsuffixStep_flags (st : ParseState) :
    (warnSsuffixStep st).fgsize = st.fgsize ∧ (warnSsuffixStep st).bgsize = st.bgsize
    ∧ (warnSsuffixStep st).smooththreshold = st.smooththreshold
    ∧ (warnSsuffixStep st).prunethresh = st.prunethresh
    ∧ (warnSsuffixStep st).ssuffix = st.ssuffix
    ∧ (warnSsuffixStep st).fsuffix = st.fsuffix := by
  unfold warnSsuffixStep
  split
  all_goals exact ⟨rfl, rfl, rfl, rfl, rfl, rfl⟩

/-- Lines 710-721 of mv.cpp, stated for an arbitrary state entering the
warning section: each dependent-option flag set without its parent feature
makes the corresponding warning appear in the messages. -/
theorem warningsPhase_warns (st : ParseState) :
    (st.fgsize = true → st.config.filterfgnoise = false →
      Msg.warnFgsizeIgnored ∈ (warningsPhase st).msgs)
    ∧ (st.bgsize = true → st.config.filterbknoise = false →
      Msg.warnBgsizeIgnored ∈ (warningsPhase st).msgs)
    ∧ (st.smooththreshold = true → st.config.enablesmooththresh = false →
      Msg.warnSmooththresholdIgnored ∈ (warningsPhase st).msgs)
    ∧ (st.prunethresh = true → st.config.enableRootPruning = false →
      Msg.warnPrunethresholdIgnored ∈ (warningsPhase st).msgs)
    ∧ (st.ssuffix = true → st.config.savesegmented = false →
      Msg.warnSsuffixIgnored ∈ (warningsPhase st).msgs)
    ∧ (st.fsuffix = true → st.config.saveprocessed = false →
      Msg.warnFsuffixIgnored ∈ (warningsPhase st).msgs) := by
  have c1 : (warnFgsizeStep st).config = st.config := warnFgsizeStep_config st
  have c2 : (warnBgsizeStep (warnFgsizeStep st)).config = st.config := by
    rw [warnBgsizeStep_config, c1]
  have c3 : (warnSmooththresholdStep (warnBgsizeStep (warnFgsizeStep st))).config
      = st.config := by
    rw [warnSmooththresholdStep_config, c2]
  have c4 : (warnPrunethresholdStep (warnSmooththresholdStep (warnBgsizeStep
      (warnFgsizeStep st)))).config = st.config := by
    rw [warnPrunethresholdStep_config, c3]
  have c5 : (warnSsuffixStep (warnPrunethresholdStep (warnSmooththresholdStep (warnBgsizeStep
      (warnFgsizeStep st))))).config = st.config := by
    rw [warnSsuffixStep_config, c4]
  have t1 : (warnFgsizeStep st).bgsize = st.bgsize := (warnFgsizeStep_flags st).2.1
  have t2 : (warnBgsizeStep (warnFgsizeStep st)).smooththreshold = st.smooththreshold := by
    rw [(warnBgsizeStep_flags _).2.2.1, (warnFgsizeStep_flags _).2.2.1]
  have t3 : (warnSmooththresholdStep (warnBgsizeStep (warnFgsizeStep st))).prunethresh
      = st.prunethresh := by
    rw [(warnSmooththresholdStep_flags _).2.2.2.1, (warnBgsizeStep_flags _).2.2.2.1,
        (warnFgsizeStep_flags _).2.2.2.1]
  have t4 : (warnPrunethresholdStep (warnSmooththresholdStep (warnBgsizeStep
      (warnFgsizeStep st)))).ssuffix = st.ssuffix := by
    rw [(warnPrunethresholdStep_flags _).2.2.2.2.1, (warnSmooththresholdStep_flags _).2.2.2.2.1,
        (warnBgsizeStep_flags _).2.2.2.2.1, (warnFgsizeStep_flags _).2.2.2.2.1]
  have t5 : (warnSsuffixStep (warnPrunethresholdStep (warnSmooththresholdStep (warnBgsizeStep
      (warnFgsizeStep st))))).fsuffix = st.fsuffix := by
    rw [(warnSsuffixStep_flags _).2.2.2.2.2, (warnPrunethresholdStep_flags _).2.2.2.2.2,
        (warnSmooththresholdStep_flags _).2.2.2.2.2, (warnBgsizeStep_flags _).2.2.2.2.2,
        (warnFgsizeStep_flags _).2.2.2.2.2]
  refine ⟨?_, ?_, ?_, ?_, ?_, ?_⟩
  · intro h1 h2
    show Msg.warnFgsizeIgnored ∈ (warnFsuffixStep (warnSsuffixStep (warnPrunethresholdStep
      (warnSmooththresholdStep (warnBgsizeStep (warnFgsizeStep st)))))).msgs
    have hf : Msg.warnFgsizeIgnored ∈ (warnFgsizeStep st).msgs := by
      unfold warnFgsizeStep
      rw [if_pos (⟨h1, by simp [h2]⟩ :
        st.fgsize = true ∧ ¬(st.config.filterfgnoise = true))]
      simp
    exact warnFsuffixStep_msgs_mono _ _ (warnSsuffixStep_msgs_mono _ _
      (warnPrunethresholdStep_msgs_mono _ _ (warnSmooththresholdStep_msgs_mono _ _
        (warnBgsizeStep_msgs_mono _ _ hf))))
  · intro h1 h2
    show Msg.warnBgsizeIgnored ∈ (warnFsuffixStep (warnSsuffixStep (warnPrunethresholdStep
      (warnSmooththresholdStep (warnBgsizeStep (warnFgsizeStep st)))))).msgs
    have hf : Msg.warnBgsizeIgnored ∈ (warnBgsizeStep (warnFgsizeStep st)).msgs := by
      unfold warnBgsizeStep
      rw [if_pos (⟨by rw [t1] ; exact h1, by rw [c1] ; simp [h2]⟩ :
        (warnFgsizeStep st).bgsize = true
          ∧ ¬((warnFgsizeStep st).config.filterbknoise = true))]
      simp
    exact warnFsuffixStep_msgs_mono _ _ (warnSsuffixStep_msgs_mono _ _
      (warnPrunethresholdStep_msgs_mono _ _ (warnSmooththresholdStep_msgs_mono _ _ hf)))
  · intro h1 h2
    show Msg.warnSmooththresholdIgnored ∈ (warnFsuffixStep (warnSsuffixStep
      (warnPrunethresholdStep (warnSmooththresholdStep (warnBgsizeStep
        (warnFgsizeStep st)))))).msgs
    have hf : Msg.warnSmooththresholdIgnored ∈
        (warnSmooththresholdStep (warnBgsizeStep (warnFgsizeStep st))).msgs := by
      unfold warnSmooththresholdStep
      rw [if_pos (⟨by rw [t2] ; exact h1, by rw [c2] ; simp [h2]⟩ :
        (warnBgsizeStep (warnFgsizeStep st)).smooththreshold = true
          ∧ ¬((warnBgsizeStep (warnFgsizeStep st)).config.enablesmooththresh = true))]
      simp
    exact warnFsuffixStep_msgs_mono _ _ (warnSsuffixStep_msgs_mono _ _
      (warnPrunethresholdStep_msgs_mono _ _ hf))
  · intro h1 h2
    show Msg.warnPrunethresholdIgnored ∈ (warnFsuffixStep (warnSsuffixStep
      (warnPrunethresholdStep (warnSmooththresholdStep (warnBgsizeStep
        (warnFgsizeStep st)))))).msgs
    have hf : Msg.warnPrunethresholdIgnored ∈
        (warnPrunethresholdStep (warnSmooththresholdStep (warnBgsizeStep
          (warnFgsizeStep st)))).msgs := by
      unfold warnPrunethresholdStep
      rw [if_pos (⟨by rw [t3] ; exact h1, by rw [c3] ; simp [h2]⟩ :
        (warnSmooththresholdStep (warnBgsizeStep (warnFgsizeStep st))).prunethresh = true
          ∧ ¬((warnSmooththresholdStep (warnBgsizeStep
                (warnFgsizeStep st))).config.enableRootPruning = true))]
      simp
    exact warnFsuffixStep_msgs_mono _ _ (warnSsuffixStep_msgs_mono _ _ hf)
  · intro h1 h2
    show Msg.warnSsuffixIgnored ∈ (warnFsuffixStep (warnSsuffixStep
      (warnPrunethresholdStep (warnSmooththresholdStep (warnBgsizeStep
        (warnFgsizeStep st)))))).msgs
    have hf : Msg.warnSsuffixIgnored ∈
        (warnSsuffixStep (warnPrunethresholdStep (warnSmooththresholdStep (warnBgsizeStep
          (warnFgsizeStep st))))).msgs := by
      unfold warnSsuffixStep
      rw [if_pos (⟨by rw [t4] ; exact h1, by rw [c4] ; simp [h2]⟩ :
        (warnPrunethresholdStep (warnSmooththresholdStep (warnBgsizeStep
            (warnFgsizeStep st)))).ssuffix = true
          ∧ ¬((warnPrunethresholdStep (warnSmooththresholdStep (warnBgsizeStep
                (warnFgsizeStep st)))).config.savesegmented = true))]
      simp
    exact warnFsuffixStep_msgs_mono _ _ hf
  · intro h1 h2
    show Msg.warnFsuffixIgnored ∈ (warnFsuffixStep (warnSsuffixStep
      (warnPrunethresholdStep (warnSmooththresholdStep (warnBgsizeStep
        (warnFgsizeStep st)))))).msgs
    unfold warnFsuffixStep
    rw [if_pos (⟨by rw [t5] ; exact h1, by rw [c5] ; simp [h2]⟩ :
      (warnSsuffixStep (warnPrunethresholdStep (warnSmooththresholdStep (warnBgsizeStep
          (warnFgsizeStep st))))).fsuffix = true
        ∧ ¬((warnSsuffixStep (warnPrunethresholdStep (warnSmooththresholdStep (warnBgsizeStep
              (warnFgsizeStep st))))).config.saveprocessed = true))]
    simp


/-- C8: for every filesystem and every command line on which parsing runs to
completion (no configuration-error return), each dependent value-option that
was supplied without its parent feature enabled (--fgsize without --fgnoise,
--bgsize without --bgnoise, --smooththreshold without --smooth,
--prunethreshold without --prune, --ssuffix without --segment, --fsuffix
without --feature, or a conversion factor --factordpi / --factorpixels
without --convert) makes parsing emit the corresponding warning while the
parent feature stays disabled, the conversion factor is reset to 1, and the
post-loop phases leave the help flag untouched, so the combination alone
aborts nothing.  The parser-local flags (fgsize, bgsize, smooththreshold,
prunethresh, ssuffix, fsuffix, dpi, pixels) mirror the C++ locals of the
same names: the argument loop sets one exactly when it consumes the
corresponding option, and no later phase changes it. -/
theorem c8_dependent_value_options_warn (fsys : FileSystem) (argv : List String)
    (h : (parseCommandLine fsys argv).earlyReturn = false) :
    ((parsePreFixup fsys argv).fgsize = true →
      (parsePreFixup fsys argv).config.filterfgnoise = false →
      Msg.warnFgsizeIgnored ∈ (parseCommandLine fsys argv).msgs
        ∧ (parseCommandLine fsys argv).config.filterfgnoise = false)
    ∧ ((parsePreFixup fsys argv).bgsize = true →
      (parsePreFixup fsys argv).config.filterbknoise = false →
      Msg.warnBgsizeIgnored ∈ (parseCommandLine fsys argv).msgs
        ∧ (parseCommandLine fsys argv).config.filterbknoise = false)
    ∧ ((parsePreFixup fsys argv).smooththreshold = true →
      (parsePreFixup fsys argv).config.enablesmooththresh = false →
      Msg.warnSmooththresholdIgnored ∈ (parseCommandLine fsys argv).msgs
        ∧ (parseCommandLine fsys argv).config.enablesmooththresh = false)
    ∧ ((parsePreFixup fsys argv).prunethresh = true →
      (parsePreFixup fsys argv).config.enableRootPruning = false →
      Msg.warnPrunethresholdIgnored ∈ (parseCommandLine fsys argv).msgs
        ∧ (parseCommandLine fsys argv).config.enableRootPruning = false)
    ∧ ((parsePreFixup fsys argv).ssuffix = true →
      (parsePreFixup fsys argv).config.savesegmented = false →
      Msg.warnSsuffixIgnored ∈ (parseCommandLine fsys argv).msgs
        ∧ (parseCommandLine fsys argv).config.savesegmented = false)
    ∧ ((parsePreFixup fsys argv).fsuffix = true →
      (parsePreFixup fsys argv).config.saveprocessed = false →
      Msg.warnFsuffixIgnored ∈ (parseCommandLine fsys argv).msgs
        ∧ (parseCommandLine fsys argv).config.saveprocessed = false)
    ∧ ((parsePreFixup fsys argv).config.pixelconv = false →
      ((parsePreFixup fsys argv).dpi = true ∨ (parsePreFixup fsys argv).pixels = true) →
      Msg.warnFactorWithoutConvert ∈ (parseCommandLine fsys argv).msgs
        ∧ (parseCommandLine fsys argv).config.conversion = 1
        ∧ (parseCommandLine fsys argv).config.pixelspermm = 0
        ∧ (parseCommandLine fsys argv).config.pixelconv = false)
    ∧ (parseCommandLine fsys argv).config.showHelp
        = (parsePreFixup fsys argv).config.showHelp := by
  have h0 : (unlessEarly warningsPhase (unlessEarly drangesValidatePhase
      (unlessEarly drangesSortPhase (unlessEarly pixelconvPhase
        (unlessEarly fixupBrokenRoot (parsePreFixup fsys argv)))))).earlyReturn = false := h
  obtain ⟨e4, q4⟩ := unlessEarly_early_back _ _ h0
  obtain ⟨e3, q3⟩ := unlessEarly_early_back _ _ e4
  obtain ⟨e2, q2⟩ := unlessEarly_early_back _ _ e3
  obtain ⟨e1, q1⟩ := unlessEarly_early_back _ _ e2
  obtain ⟨e0, q0⟩ := unlessEarly_early_back _ _ e1
  have ev : (drangesValidatePhase (unlessEarly drangesSortPhase (unlessEarly pixelconvPhase
      (unlessEarly fixupBrokenRoot (parsePreFixup fsys argv))))).earlyReturn = false := by
    rw [← q3]
    exact e4
  have i4 := drangesValidatePhase_skip _ ev
  have es : (drangesSortPhase (unlessEarly pixelconvPhase
      (unlessEarly fixupBrokenRoot (parsePreFixup fsys argv)))).earlyReturn = false := by
    rw [← q2]
    exact e3
  have i3 := drangesSortPhase_skip _ es
  have Hfin : parseCommandLine fsys argv =
      warningsPhase (pixelconvPhase (fixupBrokenRoot (parsePreFixup fsys argv))) := by
    show unlessEarly warningsPhase (unlessEarly drangesValidatePhase
      (unlessEarly drangesSortPhase (unlessEarly pixelconvPhase
        (unlessEarly fixupBrokenRoot (parsePreFixup fsys argv))))) = _
    rw [q4, q3, i4, q2, i3, q1, q0]
  obtain ⟨b1, b2, b3, b4, b5, b6, b7, b8, b9, b10, b11, b12, b13, b14, b15, b16⟩ :=
    fixupBrokenRoot_fields (parsePreFixup fsys argv)
  obtain ⟨p1, p2, p3, p4, p5, p6, p7, p8, p9, p10, p11, p12, p13⟩ :=
    pixelconvPhase_fields (fixupBrokenRoot (parsePreFixup fsys argv))
  have WC : (warningsPhase (pixelconvPhase (fixupBrokenRoot (parsePreFixup fsys argv)))).config
      = (pixelconvPhase (fixupBrokenRoot (parsePreFixup fsys argv))).config :=
    warningsPhase_config _
  have WW := warningsPhase_warns (pixelconvPhase (fixupBrokenRoot (parsePreFixup fsys argv)))
  refine ⟨?_, ?_, ?_, ?_, ?_, ?_, ?_, ?_⟩
  · intro h1 h2
    refine ⟨?_, ?_⟩
    · rw [Hfin]
      exact WW.1 (by rw [p1, b1] ; exact h1) (by rw [p7, b9] ; exact h2)
    · rw [Hfin, WC, p7, b9]
      exact h2
  · intro h1 h2
    refine ⟨?_, ?_⟩
    · rw [Hfin]
      exact WW.2.1 (by rw [p2, b2] ; exact h1) (by rw [p8, b10] ; exact h2)
    · rw [Hfin, WC, p8, b10]
      exact h2
  · intro h1 h2
    refine ⟨?_, ?_⟩
    · rw [Hfin]
      exact WW.2.2.1 (by rw [p3, b3] ; exact h1) (by rw [p9, b11] ; exact h2)
    · rw [Hfin, WC, p9, b11]
      exact h2
  · intro h1 h2
    refine ⟨?_, ?_⟩
    · rw [Hfin]
      exact WW.2.2.2.1 (by rw [p4, b4] ; exact h1) (by rw [p10, b12] ; exact h2)
    · rw [Hfin, WC, p10, b12]
      exact h2
  · intro h1 h2
    refine ⟨?_, ?_⟩
    · rw [Hfin]
      exact WW.2.2.2.2.1 (by rw [p5, b5] ; exact h1) (by rw [p11, b13] ; exact h2)
    · rw [Hfin, WC, p11, b13]
      exact h2
  · intro h1 h2
    refine ⟨?_, ?_⟩
    · rw [Hfin]
      exact WW.2.2.2.2.2 (by rw [p6, b6] ; exact h1) (by rw [p12, b14] ; exact h2)
    · rw [Hfin, WC, p12, b14]
      exact h2
  · intro h1 h2
    have hdp : (fixupBrokenRoot (parsePreFixup fsys argv)).dpi = true ∨
        (fixupBrokenRoot (parsePreFixup fsys argv)).pixels = true := by
      rcases h2 with hx | hx
      · exact Or.inl (by rw [b7] ; exact hx)
      · exact Or.inr (by rw [b8] ; exact hx)
    have hC := pixelconvPhase_noconvert (fixupBrokenRoot (parsePreFixup fsys argv))
      (by rw [b15] ; exact h1) hdp
    refine ⟨?_, ?_, ?_, ?_⟩
    · rw [Hfin]
      apply warningsPhase_msgs_mono
      rw [hC]
      simp
    · rw [Hfin, WC, hC]
    · rw [Hfin, WC, hC]
    · rw [Hfin, WC, hC]
      show (fixupBrokenRoot (parsePreFixup fsys argv)).config.pixelconv = false
      rw [b15]
      exact h1
  · rw [Hfin, WC, p13, b16]

/-- Witness for C8 at a concrete run supplying all six dependent value
options and a DPI conversion factor, none with its parent feature enabled:
every warning is emitted, the conversion factor is reset to 1 and no help
exit is requested. -/
theorem c8_dependent_value_options_warn_witness :
    Msg.warnFgsizeIgnored ∈ (parseCommandLine testFS c8Argv).msgs
    ∧ Msg.warnBgsizeIgnored ∈ (parseCommandLine testFS c8Argv).msgs
    ∧ Msg.warnSmooththresholdIgnored ∈ (parseCommandLine testFS c8Argv).msgs
    ∧ Msg.warnPrunethresholdIgnored ∈ (parseCommandLine testFS c8Argv).msgs
    ∧ Msg.warnSsuffixIgnored ∈ (parseCommandLine testFS c8Argv).msgs
    ∧ Msg.warnFsuffixIgnored ∈ (parseCommandLine testFS c8Argv).msgs
    ∧ Msg.warnFactorWithoutConvert ∈ (parseCommandLine testFS c8Argv).msgs
    ∧ (parseCommandLine testFS c8Argv).config.conversion = 1
    ∧ (parseCommandLine testFS c8Argv).config.showHelp = false := by
  have H := c8_dependent_value_options_warn testFS c8Argv rfl
  refine ⟨(H.1 rfl rfl).1, (H.2.1 rfl rfl).1, (H.2.2.1 rfl rfl).1, (H.2.2.2.1 rfl rfl).1,
    (H.2.2.2.2.1 rfl rfl).1, (H.2.2.2.2.2.1 rfl rfl).1,
    (H.2.2.2.2.2.2.1 rfl (Or.inl rfl)).1, (H.2.2.2.2.2.2.1 rfl (Or.inl rfl)).2.1, ?_⟩
  rw [H.2.2.2.2.2.2.2]
  rfl

end RVE
